import Mathlib

/-!
# The C++ training API of onnxruntime: `Ort::CheckpointState` and `Ort::TrainingSession`

A shallow embedding of `onnxruntime_training_cxx_inline.h`.  Every member function of
the header is a thin wrapper over one function of the C table `OrtTrainingApi`; the
table itself is declared in `onnxruntime_training_c_api.h`, which is not part of this
unit, so the wrappers are written over an arbitrary table `OrtTrainingApi W`, where `W`
is the state of the native runtime behind the table.

Conventions of the embedding.

* A pointer handed across the C boundary is represented by what it points to
  (`CharBuf` for a `char*`, `Pointee` for a `void*`), handles by their address.
* An out-parameter of a C function is a component of the value the function returns.
* A C++ call has one of three outcomes: it returns, it throws `Ort::Exception`, or it
  has left the defined behaviour of the language (`Outcome.undefined`).
* A `delete` changes no value a wrapper returns, but a single-object `delete` applied
  to an array has no defined behaviour; the embedding keeps that
  (`single_object_delete_defined`).  Destructors and leaks have no counterpart here.
-/

namespace Ort

/-! ## Scalars, strings and pointees -/

/-- One `char`: a byte. -/
abbrev char := Fin 256

/-- A `std::string` (and a `std::basic_string<ORTCHAR_T>` in a narrow-character build):
its `length()` bytes, any of which may be zero. -/
abbrev std_string := List char

/-- The array a `char*` points to, from the pointer to the end of the allocation. -/
abbrev CharBuf := List char

/-- An `int64_t`. -/
structure int64_t where
  val : Int
  lo : -9223372036854775808 ≤ val
  hi : val ≤ 9223372036854775807
deriving DecidableEq

/-- A `float`, by its 32-bit pattern: the wrappers only copy floats. -/
structure float where
  bits : Fin 4294967296
deriving DecidableEq

/-- A `size_t`; the wrappers only count up to it. -/
abbrev size_t := Nat

/-- The object a `void*` handed across the C boundary points to, by value: nothing, a
single `int64_t`, a single `float`, a single `char`, or an array of `char`.  How a single
object was allocated is not recorded: one the store hands back is the store's own, made
with `new`.  An array is an array however it was allocated. -/
inductive Pointee where
  | null
  | int64 (v : int64_t)
  | float (v : float)
  | char (c : char)
  | chars (buf : CharBuf)
deriving DecidableEq

/-- An `OrtValue*`; `none` is `nullptr`. -/
abbrev OrtValuePtr := Option Nat

/-- An `Ort::Value`: the owner of one `OrtValue*`. -/
structure Value where
  p_ : OrtValuePtr
deriving DecidableEq

/-- An `OrtCheckpointState*`, by address. -/
abbrev OrtCheckpointStatePtr := Nat

/-- An `OrtTrainingSession*`, by address. -/
abbrev OrtTrainingSessionPtr := Nat

/-- The `Ort::Env` of `onnxruntime_cxx_api.h` (not in this unit): it carries nothing the
wrappers look at. -/
inductive Env where
  | mk
deriving DecidableEq

/-- The `Ort::SessionOptions` of `onnxruntime_cxx_api.h` (not in this unit). -/
inductive SessionOptions where
  | mk
deriving DecidableEq

/-- The `Ort::RunOptions` of `onnxruntime_cxx_api.h` (not in this unit); the wrappers
only ever pass a default-constructed one. -/
inductive RunOptions where
  | mk
deriving DecidableEq

/-! ## Status, exceptions and outcomes -/

/-- Modelled from the spec: the error kinds of its section 7, and the
`InvalidModelError` of its section 4.4.  The enumeration `OrtErrorCode` is declared in
`onnxruntime_c_api.h`, which is missing; the only enumerator the wrappers name is
`ORT_INVALID_ARGUMENT`, the spec's `InvalidArgumentError`. -/
inductive OrtErrorCode where
  | ORT_INVALID_ARGUMENT
  | NotFoundError
  | CorruptCheckpointError
  | GraphBindingError
  | InvalidModelError
  | UnsupportedOperationError
  | ExecutionError
  | IOError
deriving DecidableEq

/-- What a non-null `OrtStatus*` carries, and what the `Ort::Exception` thrown for it
carries. -/
structure OrtStatus where
  code : OrtErrorCode
  msg : String
deriving DecidableEq

/-- An `OrtStatus*`: `none` is `nullptr`, success. -/
abbrev OrtStatusPtr := Option OrtStatus

/-- How a C++ call ends. -/
inductive Outcome (α : Type) where
  | returns (a : α)
  | throws (e : OrtStatus)
  | undefined
deriving DecidableEq

/-- Modelled from the spec: `Ort::ThrowOnError` of `onnxruntime_cxx_api.h` (missing).
A null status is success; any other status is thrown to the caller as it is
("surfaced synchronously to the caller at the point of the failing call"). -/
def ThrowOnError (status : OrtStatusPtr) : Outcome Unit :=
  match status with
  | none => Outcome.returns ()
  | some st => Outcome.throws st

/-- Modelled from the spec: `Ort::detail::ThrowStatus(Status(msg, code))` of
`onnxruntime_cxx_api.h` (missing): throws the exception with that message and code. -/
def ThrowStatus {α : Type} (msg : String) (code : OrtErrorCode) : Outcome α :=
  Outcome.throws { code := code, msg := msg }

/-! ## The property variant and the kind tag -/

/-- The alias `Property = std::variant<int64_t, float, std::string>`; `valueless` is the
variant that holds none of the three (`valueless_by_exception`). -/
inductive Property where
  | int64 (v : int64_t)
  | float (v : float)
  | string (v : std_string)
  | valueless
deriving DecidableEq

/-- The C enumeration `OrtPropertyType` of `onnxruntime_training_c_api.h` (missing): the
three enumerators the wrappers name, and `unknown raw` for any other value an object of
the enumeration type may hold. -/
inductive OrtPropertyType where
  | OrtIntProperty
  | OrtFloatProperty
  | OrtStringProperty
  | unknown (raw : Nat)
deriving DecidableEq

/-! ## The C++ library pieces the wrappers use -/

/-- The array `std::string::c_str()` points to: the bytes of the string, then a zero. -/
def c_str (s : std_string) : CharBuf := s ++ [0]

/-- The array of `std::make_unique<char[]>(n)`: `n` value-initialised (zero) bytes. -/
def make_unique_char_array (n : Nat) : CharBuf := List.replicate n 0

/-- The destination after `memcpy(dst, src, n)`: its first `n` bytes are the first `n`
bytes of `src`, the rest is as before. -/
def memcpy (dst src : CharBuf) (n : Nat) : CharBuf := src.take n ++ dst.drop n

/-- The constructor `std::string(const char*)`: the bytes before the first zero byte.
`none` when the array holds no zero byte (the read runs off its end). -/
def string_from_c_str (p : CharBuf) : Option std_string :=
  if (0 : char) ∈ p then some (p.takeWhile (fun c => decide (c ≠ 0))) else none

/-- The read `*reinterpret_cast<int64_t*>(p)`: defined when `p` points to an `int64_t`. -/
def deref_int64 (p : Pointee) : Option int64_t :=
  match p with
  | Pointee.int64 v => some v
  | _ => none

/-- The read `*reinterpret_cast<float*>(p)`: defined when `p` points to a `float`. -/
def deref_float (p : Pointee) : Option float :=
  match p with
  | Pointee.float v => some v
  | _ => none

/-- The conversion `reinterpret_cast<char*>(p)`: defined when `p` points to characters,
an array of them or a single one. -/
def as_chars (p : Pointee) : Option CharBuf :=
  match p with
  | Pointee.chars buf => some buf
  | Pointee.char c => some [c]
  | _ => none

/-- The string of lines 159-160, `std::string(reinterpret_cast<char*>(property_value))`:
`none` where the conversion or the read is undefined. -/
def string_read (property_value : Pointee) : Option std_string :=
  (as_chars property_value).bind string_from_c_str

/-- Whether the single-object delete-expression `delete value_p` of lines 149, 155 and
161 is defined: it is for a null pointer and for a pointer to a single object, and it is
not for a pointer to an array, such as the buffer `AddProperty` makes with
`std::make_unique<char[]>` (line 129), which only `delete[]` may release. -/
def single_object_delete_defined (value_p : Pointee) : Bool :=
  match value_p with
  | Pointee.chars _ => false
  | _ => true

/-- The loop `for (size_t i = 0; i < n; i++) output_values.emplace_back(nullptr);`. -/
def emplace_back_nullptr : Nat → List Value → List Value
  | 0, output_values => output_values
  | n + 1, output_values => emplace_back_nullptr n (output_values ++ [Value.mk none])

/-- The view `reinterpret_cast<OrtValue**>(values.data())` of a vector of `Value`. -/
def data (values : List Value) : List OrtValuePtr := values.map Value.p_

/-- The vector `output_values` once the native call has stored `written` through
`output_values.data()`, element `i` of `written` at index `i`.  `none` when `written` is
longer than the vector: the stores run off its end. -/
def stored_through (output_values : List Value) (written : List OrtValuePtr) :
    Option (List Value) :=
  if written.length ≤ output_values.length then
    some (written.map Value.mk ++ output_values.drop written.length)
  else none

/-! ## The C table -/

/-- What a C function of the table leaves behind: its status and the runtime state. -/
structure Ret (W : Type) where
  status : OrtStatusPtr
  world : W
deriving DecidableEq

/-- The same for a function with out-parameters: `out` is what the out-parameters hold
once the function is back.  For `TrainStep` and `EvalStep`, whose out-parameter is the
caller's output array, `out` lists the values the function stored into the array, from
index 0 on. -/
structure RetOut (α W : Type) where
  status : OrtStatusPtr
  out : α
  world : W
deriving DecidableEq

/-- The table `OrtTrainingApi` of `onnxruntime_training_c_api.h` (missing), reduced to
the entries the wrappers call, over a native runtime with states `W`. -/
structure OrtTrainingApi (W : Type) where
  LoadCheckpoint : W → CharBuf → RetOut OrtCheckpointStatePtr W
  SaveCheckpoint : W → OrtCheckpointStatePtr → CharBuf → Ret W
  CreateTrainingSession : W → Env → SessionOptions → OrtCheckpointStatePtr → CharBuf →
    Option CharBuf → Option CharBuf → RetOut OrtTrainingSessionPtr W
  TrainingSessionGetTrainingModelOutputCount : W → OrtTrainingSessionPtr → RetOut size_t W
  TrainingSessionGetEvalModelOutputCount : W → OrtTrainingSessionPtr → RetOut size_t W
  LazyResetGrad : W → OrtTrainingSessionPtr → Ret W
  TrainStep : W → OrtTrainingSessionPtr → RunOptions → size_t → List OrtValuePtr →
    size_t → List OrtValuePtr → RetOut (List OrtValuePtr) W
  EvalStep : W → OrtTrainingSessionPtr → RunOptions → size_t → List OrtValuePtr →
    size_t → List OrtValuePtr → RetOut (List OrtValuePtr) W
  SetLearningRate : W → OrtTrainingSessionPtr → float → Ret W
  GetLearningRate : W → OrtTrainingSessionPtr → RetOut float W
  OptimizerStep : W → OrtTrainingSessionPtr → RunOptions → Ret W
  RegisterLinearLRScheduler : W → OrtTrainingSessionPtr → int64_t → int64_t → float → Ret W
  SchedulerStep : W → OrtTrainingSessionPtr → Ret W
  GetState : W → OrtTrainingSessionPtr → Bool → RetOut OrtCheckpointStatePtr W
  ExportModelForInferencing : W → OrtTrainingSessionPtr → CharBuf → size_t →
    List CharBuf → Ret W
  SetSeed : W → int64_t → Ret W
  AddProperty : W → OrtCheckpointStatePtr → CharBuf → OrtPropertyType → Pointee → Ret W
  GetProperty : W → OrtCheckpointStatePtr → CharBuf → RetOut (OrtPropertyType × Pointee) W

/-! ## The wrappers of `onnxruntime_training_cxx_inline.h` -/

/-- The class `Ort::CheckpointState`: the owner of one `OrtCheckpointState*`. -/
structure CheckpointState where
  p_ : OrtCheckpointStatePtr
deriving DecidableEq

/-- The class `Ort::TrainingSession`: the handle and the two cached output counts. -/
structure TrainingSession where
  p_ : OrtTrainingSessionPtr
  training_model_output_count_ : size_t
  eval_model_output_count_ : size_t
deriving DecidableEq

variable {W : Type}

/-- The statement `ThrowOnError(call); return value;` -/
def throw_or {α : Type} (status : OrtStatusPtr) (value : α) (w : W) : Outcome α × W :=
  match ThrowOnError status with
  | Outcome.returns _ => (Outcome.returns value, w)
  | Outcome.throws e => (Outcome.throws e, w)
  | Outcome.undefined => (Outcome.undefined, w)

/-- The constructor `TrainingSession::TrainingSession` (lines 10-26); `construct` here,
the name of the class being that of the structure. -/
def TrainingSession.construct (api : OrtTrainingApi W) (w : W)
    (session_options : SessionOptions) (checkpoint_state : CheckpointState)
    (train_model_path : std_string) (eval_model_path : Option std_string)
    (optimizer_model_path : Option std_string) : Outcome TrainingSession × W :=
  let env := Env.mk
  let r1 := api.CreateTrainingSession w env session_options checkpoint_state.p_
    (c_str train_model_path) (eval_model_path.map c_str) (optimizer_model_path.map c_str)
  match ThrowOnError r1.status with
  | Outcome.throws e => (Outcome.throws e, r1.world)
  | Outcome.undefined => (Outcome.undefined, r1.world)
  | Outcome.returns _ =>
    let p_ := r1.out
    let r2 := api.TrainingSessionGetTrainingModelOutputCount r1.world p_
    match ThrowOnError r2.status with
    | Outcome.throws e => (Outcome.throws e, r2.world)
    | Outcome.undefined => (Outcome.undefined, r2.world)
    | Outcome.returns _ =>
      let training_model_output_count_ := r2.out
      let r3 := api.TrainingSessionGetEvalModelOutputCount r2.world p_
      throw_or r3.status
        { p_ := p_,
          training_model_output_count_ := training_model_output_count_,
          eval_model_output_count_ := r3.out } r3.world

/-- The tail of `TrainStep` and `EvalStep`: the native call has stored `r.out` through
the output pointer; then `ThrowOnError(status); return output_values;`. -/
def step_result (output_values : List Value) (r : RetOut (List OrtValuePtr) W) :
    Outcome (List Value) × W :=
  match stored_through output_values r.out with
  | none => (Outcome.undefined, r.world)
  | some filled => throw_or r.status filled r.world

/-- The member `TrainingSession::TrainStep` (lines 28-40). -/
def TrainingSession.TrainStep (api : OrtTrainingApi W) (w : W) (self : TrainingSession)
    (input_values : List Value) : Outcome (List Value) × W :=
  let output_values := emplace_back_nullptr self.training_model_output_count_ []
  let ort_input_values := data input_values
  let ort_output_values := data output_values
  let run_options := RunOptions.mk
  step_result output_values
    (api.TrainStep w self.p_ run_options input_values.length ort_input_values
      self.training_model_output_count_ ort_output_values)

/-- The member `TrainingSession::LazyResetGrad` (lines 42-44). -/
def TrainingSession.LazyResetGrad (api : OrtTrainingApi W) (w : W)
    (self : TrainingSession) : Outcome Unit × W :=
  let r := api.LazyResetGrad w self.p_
  throw_or r.status () r.world

/-- The member `TrainingSession::EvalStep` (lines 46-58).  The vector is sized with
`eval_model_output_count_`; the count handed to the native call on line 55 is
`training_model_output_count_`. -/
def TrainingSession.EvalStep (api : OrtTrainingApi W) (w : W) (self : TrainingSession)
    (input_values : List Value) : Outcome (List Value) × W :=
  let output_values := emplace_back_nullptr self.eval_model_output_count_ []
  let ort_input_values := data input_values
  let ort_output_values := data output_values
  let run_options := RunOptions.mk
  step_result output_values
    (api.EvalStep w self.p_ run_options input_values.length ort_input_values
      self.training_model_output_count_ ort_output_values)

/-- The member `TrainingSession::SetLearningRate` (lines 60-62). -/
def TrainingSession.SetLearningRate (api : OrtTrainingApi W) (w : W)
    (self : TrainingSession) (learning_rate : float) : Outcome Unit × W :=
  let r := api.SetLearningRate w self.p_ learning_rate
  throw_or r.status () r.world

/-- The member `TrainingSession::GetLearningRate` (lines 64-68). -/
def TrainingSession.GetLearningRate (api : OrtTrainingApi W) (w : W)
    (self : TrainingSession) : Outcome float × W :=
  let r := api.GetLearningRate w self.p_
  throw_or r.status r.out r.world

/-- The member `TrainingSession::RegisterLinearLRScheduler` (lines 70-74). -/
def TrainingSession.RegisterLinearLRScheduler (api : OrtTrainingApi W) (w : W)
    (self : TrainingSession) (warmup_step_count total_step_count : int64_t)
    (initial_lr : float) : Outcome Unit × W :=
  let r := api.RegisterLinearLRScheduler w self.p_ warmup_step_count total_step_count
    initial_lr
  throw_or r.status () r.world

/-- The member `TrainingSession::SchedulerStep` (lines 76-78). -/
def TrainingSession.SchedulerStep (api : OrtTrainingApi W) (w : W)
    (self : TrainingSession) : Outcome Unit × W :=
  let r := api.SchedulerStep w self.p_
  throw_or r.status () r.world

/-- The member `TrainingSession::OptimizerStep` (lines 80-83). -/
def TrainingSession.OptimizerStep (api : OrtTrainingApi W) (w : W)
    (self : TrainingSession) : Outcome Unit × W :=
  let run_options := RunOptions.mk
  let r := api.OptimizerStep w self.p_ run_options
  throw_or r.status () r.world

/-- The member `TrainingSession::GetState` (lines 85-89). -/
def TrainingSession.GetState (api : OrtTrainingApi W) (w : W) (self : TrainingSession)
    (include_optimizer_state : Bool) : Outcome CheckpointState × W :=
  let r := api.GetState w self.p_ include_optimizer_state
  throw_or r.status (CheckpointState.mk r.out) r.world

/-- The static member `CheckpointState::LoadCheckpoint` (lines 91-95). -/
def CheckpointState.LoadCheckpoint (api : OrtTrainingApi W) (w : W)
    (path_to_checkpoint : std_string) : Outcome CheckpointState × W :=
  let r := api.LoadCheckpoint w (c_str path_to_checkpoint)
  throw_or r.status (CheckpointState.mk r.out) r.world

/-- The static member `CheckpointState::SaveCheckpoint` (lines 97-100). -/
def CheckpointState.SaveCheckpoint (api : OrtTrainingApi W) (w : W)
    (checkpoint_states : CheckpointState) (path_to_checkpoint : std_string) :
    Outcome Unit × W :=
  let r := api.SaveCheckpoint w checkpoint_states.p_ (c_str path_to_checkpoint)
  throw_or r.status () r.world

/-- The loop of `ExportModelForInferencing` (lines 106-108): one `push_back` of
`output_name.c_str()` for each name, in order. -/
def push_back_c_strs : List std_string → List CharBuf → List CharBuf
  | [], output_names => output_names
  | output_name :: rest, output_names =>
    push_back_c_strs rest (output_names ++ [c_str output_name])

/-- The member `TrainingSession::ExportModelForInferencing` (lines 102-111). -/
def TrainingSession.ExportModelForInferencing (api : OrtTrainingApi W) (w : W)
    (self : TrainingSession) (inference_model_path : std_string)
    (graph_output_names : List std_string) : Outcome Unit × W :=
  let output_names := push_back_c_strs graph_output_names []
  let r := api.ExportModelForInferencing w self.p_ (c_str inference_model_path)
    graph_output_names.length output_names
  throw_or r.status () r.world

/-- The function `SetSeed` (lines 113-115). -/
def SetSeed (api : OrtTrainingApi W) (w : W) (seed : int64_t) : Outcome Unit × W :=
  let r := api.SetSeed w seed
  throw_or r.status () r.world

/-- The member `CheckpointState::AddProperty` (lines 117-135). -/
def CheckpointState.AddProperty (api : OrtTrainingApi W) (w : W) (self : CheckpointState)
    (property_name : std_string) (property_value : Property) : Outcome Unit × W :=
  match property_value with
  | Property.int64 value =>
    let value_p := Pointee.int64 value
    let r := api.AddProperty w self.p_ (c_str property_name)
      OrtPropertyType.OrtIntProperty value_p
    throw_or r.status () r.world
  | Property.float value =>
    let value_p := Pointee.float value
    let r := api.AddProperty w self.p_ (c_str property_name)
      OrtPropertyType.OrtFloatProperty value_p
    throw_or r.status () r.world
  | Property.string value =>
    let buffer := make_unique_char_array (value.length + 1)
    let buffer := memcpy buffer (c_str value) value.length
    let r := api.AddProperty w self.p_ (c_str property_name)
      OrtPropertyType.OrtStringProperty (Pointee.chars buffer)
    throw_or r.status () r.world
  | Property.valueless =>
    (ThrowStatus "Unknown property type received." OrtErrorCode.ORT_INVALID_ARGUMENT, w)

/-- The statements `delete value_p; break;` that end a case of the `switch`, and the
`return property;` after it: the property read is returned when the `delete` is
defined. -/
def delete_then_return (value_p : Pointee) (property : Property) : Outcome Property :=
  if single_object_delete_defined value_p then Outcome.returns property
  else Outcome.undefined

/-- The `switch` of `CheckpointState::GetProperty` (lines 145-168) and its `return`:
each case reads the property through the payload, then deletes the payload. -/
def property_of (property_type : OrtPropertyType) (property_value : Pointee) :
    Outcome Property :=
  match property_type with
  | OrtPropertyType.OrtIntProperty =>
    match deref_int64 property_value with
    | some v => delete_then_return property_value (Property.int64 v)
    | none => Outcome.undefined
  | OrtPropertyType.OrtFloatProperty =>
    match deref_float property_value with
    | some v => delete_then_return property_value (Property.float v)
    | none => Outcome.undefined
  | OrtPropertyType.OrtStringProperty =>
    match string_read property_value with
    | some s => delete_then_return property_value (Property.string s)
    | none => Outcome.undefined
  | OrtPropertyType.unknown _ =>
    ThrowStatus "Unknown property type received." OrtErrorCode.ORT_INVALID_ARGUMENT

/-- The member `CheckpointState::GetProperty` (lines 137-171). -/
def CheckpointState.GetProperty (api : OrtTrainingApi W) (w : W) (self : CheckpointState)
    (property_name : std_string) : Outcome Property × W :=
  let r := api.GetProperty w self.p_ (c_str property_name)
  match ThrowOnError r.status with
  | Outcome.throws e => (Outcome.throws e, r.world)
  | Outcome.undefined => (Outcome.undefined, r.world)
  | Outcome.returns _ => (property_of r.out.1 r.out.2, r.world)

/-! ## Observing the calls a wrapper makes -/

/-- One call into the table, with the arguments it was given. -/
inductive ApiCall where
  | LoadCheckpoint (path : CharBuf)
  | SaveCheckpoint (state : OrtCheckpointStatePtr) (path : CharBuf)
  | CreateTrainingSession (env : Env) (options : SessionOptions)
      (state : OrtCheckpointStatePtr) (train_model_path : CharBuf)
      (eval_model_path optimizer_model_path : Option CharBuf)
  | TrainingSessionGetTrainingModelOutputCount (sess : OrtTrainingSessionPtr)
  | TrainingSessionGetEvalModelOutputCount (sess : OrtTrainingSessionPtr)
  | LazyResetGrad (sess : OrtTrainingSessionPtr)
  | TrainStep (sess : OrtTrainingSessionPtr) (run_options : RunOptions)
      (inputs_len : size_t) (inputs : List OrtValuePtr)
      (outputs_len : size_t) (outputs : List OrtValuePtr)
  | EvalStep (sess : OrtTrainingSessionPtr) (run_options : RunOptions)
      (inputs_len : size_t) (inputs : List OrtValuePtr)
      (outputs_len : size_t) (outputs : List OrtValuePtr)
  | SetLearningRate (sess : OrtTrainingSessionPtr) (learning_rate : float)
  | GetLearningRate (sess : OrtTrainingSessionPtr)
  | OptimizerStep (sess : OrtTrainingSessionPtr) (run_options : RunOptions)
  | RegisterLinearLRScheduler (sess : OrtTrainingSessionPtr)
      (warmup_step_count total_step_count : int64_t) (initial_lr : float)
  | SchedulerStep (sess : OrtTrainingSessionPtr)
  | GetState (sess : OrtTrainingSessionPtr) (include_optimizer_state : Bool)
  | ExportModelForInferencing (sess : OrtTrainingSessionPtr) (path : CharBuf)
      (outputs_len : size_t) (output_names : List CharBuf)
  | SetSeed (seed : int64_t)
  | AddProperty (state : OrtCheckpointStatePtr) (name : CharBuf)
      (type : OrtPropertyType) (value : Pointee)
  | GetProperty (state : OrtCheckpointStatePtr) (name : CharBuf)
deriving DecidableEq

/-- A result of the table `api`, with `call` appended to the record of calls. -/
def Ret.record (r : Ret W) (calls : List ApiCall) (call : ApiCall) :
    Ret (W × List ApiCall) :=
  { status := r.status, world := (r.world, calls ++ [call]) }

/-- The same for a result with out-parameters. -/
def RetOut.record {α : Type} (r : RetOut α W) (calls : List ApiCall) (call : ApiCall) :
    RetOut α (W × List ApiCall) :=
  { status := r.status, out := r.out, world := (r.world, calls ++ [call]) }

/-- The table `api` with a record of calls next to its state: every entry behaves as in
`api` and appends the call it received to the record. -/
def traced (api : OrtTrainingApi W) : OrtTrainingApi (W × List ApiCall) where
  LoadCheckpoint s path :=
    (api.LoadCheckpoint s.1 path).record s.2 (ApiCall.LoadCheckpoint path)
  SaveCheckpoint s state path :=
    (api.SaveCheckpoint s.1 state path).record s.2 (ApiCall.SaveCheckpoint state path)
  CreateTrainingSession s env options state train evalp optp :=
    (api.CreateTrainingSession s.1 env options state train evalp optp).record s.2
      (ApiCall.CreateTrainingSession env options state train evalp optp)
  TrainingSessionGetTrainingModelOutputCount s sess :=
    (api.TrainingSessionGetTrainingModelOutputCount s.1 sess).record s.2
      (ApiCall.TrainingSessionGetTrainingModelOutputCount sess)
  TrainingSessionGetEvalModelOutputCount s sess :=
    (api.TrainingSessionGetEvalModelOutputCount s.1 sess).record s.2
      (ApiCall.TrainingSessionGetEvalModelOutputCount sess)
  LazyResetGrad s sess := (api.LazyResetGrad s.1 sess).record s.2 (ApiCall.LazyResetGrad sess)
  TrainStep s sess ro n ins m outs :=
    (api.TrainStep s.1 sess ro n ins m outs).record s.2 (ApiCall.TrainStep sess ro n ins m outs)
  EvalStep s sess ro n ins m outs :=
    (api.EvalStep s.1 sess ro n ins m outs).record s.2 (ApiCall.EvalStep sess ro n ins m outs)
  SetLearningRate s sess lr :=
    (api.SetLearningRate s.1 sess lr).record s.2 (ApiCall.SetLearningRate sess lr)
  GetLearningRate s sess :=
    (api.GetLearningRate s.1 sess).record s.2 (ApiCall.GetLearningRate sess)
  OptimizerStep s sess ro :=
    (api.OptimizerStep s.1 sess ro).record s.2 (ApiCall.OptimizerStep sess ro)
  RegisterLinearLRScheduler s sess warmup total lr :=
    (api.RegisterLinearLRScheduler s.1 sess warmup total lr).record s.2
      (ApiCall.RegisterLinearLRScheduler sess warmup total lr)
  SchedulerStep s sess := (api.SchedulerStep s.1 sess).record s.2 (ApiCall.SchedulerStep sess)
  GetState s sess incl := (api.GetState s.1 sess incl).record s.2 (ApiCall.GetState sess incl)
  ExportModelForInferencing s sess path n names :=
    (api.ExportModelForInferencing s.1 sess path n names).record s.2
      (ApiCall.ExportModelForInferencing sess path n names)
  SetSeed s seed := (api.SetSeed s.1 seed).record s.2 (ApiCall.SetSeed seed)
  AddProperty s state name type value :=
    (api.AddProperty s.1 state name type value).record s.2
      (ApiCall.AddProperty state name type value)
  GetProperty s state name :=
    (api.GetProperty s.1 state name).record s.2 (ApiCall.GetProperty state name)

/-- The assumption of the round-trip laws on the store behind the table: a property the
store accepted is handed back under the same name with the tag and the payload it was
given (the payload by value: a single object equal to the one handed over, an array with
the bytes of the one handed over). -/
def StoreKeeps (api : OrtTrainingApi W) : Prop :=
  ∀ (w : W) (state : OrtCheckpointStatePtr) (name : CharBuf) (type : OrtPropertyType)
    (value : Pointee),
    (api.AddProperty w state name type value).status = none →
      (api.GetProperty (api.AddProperty w state name type value).world state name).status
          = none ∧
      (api.GetProperty (api.AddProperty w state name type value).world state name).out
          = (type, value)

/-! ## A native runtime modelled from the spec

The implementation behind the table is not part of this unit.  What the spec says about
it is written down here: the property store (4.1), the registration of the linear
schedule (4.3), the construction of a session and the snapshot of its state (4.4).  The
entries whose work the spec leaves to outside collaborators (graph execution, numerics,
storage) are taken from an arbitrary table `rest`. -/

/-- Modelled from the spec: a tensor, an "owned buffer with shape/dtype" (section 3);
the tensor runtime is not part of this unit. -/
structure Tensor where
  shape : List Nat
  buffer : List float
deriving DecidableEq

/-- Modelled from the spec: "Named Parameter - (name: string, tensor, is_trainable:
bool)" (section 3), here the tensor and the flag stored under a name; the class is
declared in `orttraining/training_api/checkpoint.h`, which is missing. -/
structure Parameter where
  tensor : Tensor
  is_trainable : Bool
deriving DecidableEq

/-- Modelled from the spec: the Module State Aggregate, "mapping from parameter name to
Named Parameter" (section 3); `named_parameters` is the member the test reads. -/
structure ModuleCheckpointState where
  named_parameters : List (std_string × Parameter)
deriving DecidableEq

/-- Modelled from the spec: one entry of the Property Store, "storing the value together
with its kind tag" (section 4.1), under the name the store was handed. -/
structure StoredProperty where
  name : CharBuf
  type : OrtPropertyType
  value : Pointee
deriving DecidableEq

/-- Modelled from the spec: "Checkpoint State - (module_state, optimizer_state,
properties)" (section 3), the class `onnxruntime::training::api::CheckpointState` of
`orttraining/training_api/checkpoint.h`, which is missing. -/
structure RefCheckpointState where
  module_checkpoint_state : ModuleCheckpointState
  optimizer_checkpoint_state : List (std_string × List Tensor)
  property_bag : List StoredProperty
deriving DecidableEq

/-- Modelled from the spec: what the core asks of a graph artifact (section 6): "(a)
expected input arity, (b) declared output count and names, (c) parameter name set for
binding validation". -/
structure RefGraph where
  input_arity : Nat
  output_names : List std_string
  parameter_names : List std_string
deriving DecidableEq

/-- Modelled from the spec: the kind of a Learning-Rate Schedule, "{none, linear}". -/
inductive ScheduleKind where
  | none
  | linear
deriving DecidableEq

/-- Modelled from the spec: "Learning-Rate Schedule - (kind, warmup_step_count,
total_step_count, initial_lr, current_step)" (section 3). -/
structure LearningRateSchedule where
  kind : ScheduleKind
  warmup_step_count : Int
  total_step_count : Int
  initial_lr : float
  current_step : Nat
deriving DecidableEq

/-- Modelled from the spec: "Training Session - (bound checkpoint_state:
shared-by-reference, train_graph, optional eval_graph, optional optimizer_graph, ...,
schedule)" (section 3); the output counts are read off the graphs. -/
structure RefSession where
  checkpoint_state : OrtCheckpointStatePtr
  train_graph : RefGraph
  eval_graph : Option RefGraph
  optimizer_graph : Option RefGraph
  schedule : LearningRateSchedule
deriving DecidableEq

/-- Modelled from the spec: the state of the native runtime: the live Checkpoint States
and Training Sessions, each at the address that is its position, and the graph
artifacts by path (`none` for a malformed artifact). -/
structure RefRuntime where
  checkpoints : List RefCheckpointState
  sessions : List RefSession
  models : List (CharBuf × Option RefGraph)
deriving DecidableEq

namespace Ref

/-- A failed call: the status, and the state as it was. -/
def fail (w : RefRuntime) (code : OrtErrorCode) (msg : String) : Ret RefRuntime :=
  { status := some { code := code, msg := msg }, world := w }

/-- A failed call with out-parameters, which keep the value `unset`. -/
def failOut {α : Type} (w : RefRuntime) (unset : α) (code : OrtErrorCode) (msg : String) :
    RetOut α RefRuntime :=
  { status := some { code := code, msg := msg }, out := unset, world := w }

/-- The parameter names of a Checkpoint State. -/
def names (c : RefCheckpointState) : List std_string :=
  c.module_checkpoint_state.named_parameters.map Prod.fst

/-- The entry of the store under `name`, if there is one. -/
def find_property (bag : List StoredProperty) (name : CharBuf) : Option StoredProperty :=
  bag.find? (fun entry => decide (entry.name = name))

/-- Modelled from the spec: "overwrites any existing property of the same name
(last-writer-wins)" (section 4.1). -/
def put_property (bag : List StoredProperty) (entry : StoredProperty) :
    List StoredProperty :=
  entry :: bag.filter (fun old => decide (old.name ≠ entry.name))

/-- Modelled from the spec: `Add(name, value)` of the Typed Property Store (4.1): the
"value constrained to {int64, float32, string}", an "unknown property kind" being an
`InvalidArgumentError` (section 7).  The spec is silent on an address that is no live
Checkpoint State; the call fails there. -/
def AddProperty (w : RefRuntime) (state : OrtCheckpointStatePtr) (name : CharBuf)
    (type : OrtPropertyType) (value : Pointee) : Ret RefRuntime :=
  match w.checkpoints[state]? with
  | none => fail w OrtErrorCode.ORT_INVALID_ARGUMENT "no such checkpoint state"
  | some c =>
    match type with
    | OrtPropertyType.unknown _ =>
      fail w OrtErrorCode.ORT_INVALID_ARGUMENT "unknown property kind"
    | _ =>
      let entry : StoredProperty := { name := name, type := type, value := value }
      let c1 : RefCheckpointState :=
        { module_checkpoint_state := c.module_checkpoint_state,
          optimizer_checkpoint_state := c.optimizer_checkpoint_state,
          property_bag := put_property c.property_bag entry }
      { status := none,
        world :=
          { checkpoints := w.checkpoints.set state c1,
            sessions := w.sessions,
            models := w.models } }

/-- Modelled from the spec: `Get(name)` of the Typed Property Store (4.1): "returns the
stored value and its kind; fails with `NotFoundError` if absent". -/
def GetProperty (w : RefRuntime) (state : OrtCheckpointStatePtr) (name : CharBuf) :
    RetOut (OrtPropertyType × Pointee) RefRuntime :=
  match w.checkpoints[state]? with
  | none => failOut w (OrtPropertyType.unknown 0, Pointee.null)
      OrtErrorCode.ORT_INVALID_ARGUMENT "no such checkpoint state"
  | some c =>
    match find_property c.property_bag name with
    | none => failOut w (OrtPropertyType.unknown 0, Pointee.null)
        OrtErrorCode.NotFoundError "no property of that name"
    | some entry => { status := none, out := (entry.type, entry.value), world := w }

/-- Modelled from the spec: `RegisterLinearLRScheduler` (4.3): "sets schedule kind to
linear; resets current_step to 0. Precondition: `0 <= warmup_step_count <=
total_step_count`; violating this fails with `InvalidArgumentError`." -/
def RegisterLinearLRScheduler (w : RefRuntime) (sess : OrtTrainingSessionPtr)
    (warmup_step_count total_step_count : int64_t) (initial_lr : float) : Ret RefRuntime :=
  if 0 ≤ warmup_step_count.val ∧ warmup_step_count.val ≤ total_step_count.val then
    match w.sessions[sess]? with
    | none => fail w OrtErrorCode.ORT_INVALID_ARGUMENT "no such training session"
    | some s =>
      let schedule : LearningRateSchedule :=
        { kind := ScheduleKind.linear,
          warmup_step_count := warmup_step_count.val,
          total_step_count := total_step_count.val,
          initial_lr := initial_lr,
          current_step := 0 }
      let s1 : RefSession :=
        { checkpoint_state := s.checkpoint_state,
          train_graph := s.train_graph,
          eval_graph := s.eval_graph,
          optimizer_graph := s.optimizer_graph,
          schedule := schedule }
      { status := none,
        world :=
          { checkpoints := w.checkpoints,
            sessions := w.sessions.set sess s1,
            models := w.models } }
  else fail w OrtErrorCode.ORT_INVALID_ARGUMENT "invalid schedule parameters"

/-- The graph artifact at `path`: `NotFoundError` for a "missing ... graph artifact"
(section 7), `InvalidModelError` "if a model artifact is malformed" (4.4). -/
def load_model (w : RefRuntime) (path : CharBuf) : Except OrtStatus RefGraph :=
  match w.models.find? (fun m => decide (m.1 = path)) with
  | none => Except.error { code := OrtErrorCode.NotFoundError, msg := "no such model" }
  | some (_, none) =>
    Except.error { code := OrtErrorCode.InvalidModelError, msg := "malformed model" }
  | some (_, some g) => Except.ok g

/-- The same for an optional artifact: a null path is no graph. -/
def load_optional_model (w : RefRuntime) (path : Option CharBuf) :
    Except OrtStatus (Option RefGraph) :=
  match path with
  | none => Except.ok none
  | some p =>
    match load_model w p with
    | Except.error e => Except.error e
    | Except.ok g => Except.ok (some g)

/-- Whether every parameter name the graph references is present in the checkpoint. -/
def binds (c : RefCheckpointState) (g : RefGraph) : Bool :=
  g.parameter_names.all (fun n => decide (n ∈ names c))

/-- The same for an optional graph. -/
def binds_optional (c : RefCheckpointState) (g : Option RefGraph) : Bool :=
  match g with
  | none => true
  | some g => binds c g

/-- Modelled from the spec: `Construct` (4.4): "binds all graphs to the same parameter
names present in `checkpoint_state.module_state`. Fails with `GraphBindingError` if a
graph references a parameter name absent from the checkpoint, or `InvalidModelError` if
a model artifact is malformed."  The new session starts with no schedule. -/
def CreateTrainingSession (w : RefRuntime) (_env : Env) (_options : SessionOptions)
    (state : OrtCheckpointStatePtr) (train_model_path : CharBuf)
    (eval_model_path optimizer_model_path : Option CharBuf) :
    RetOut OrtTrainingSessionPtr RefRuntime :=
  match w.checkpoints[state]? with
  | none => failOut w 0 OrtErrorCode.ORT_INVALID_ARGUMENT "no such checkpoint state"
  | some c =>
    match load_model w train_model_path with
    | Except.error e => { status := some e, out := 0, world := w }
    | Except.ok train_graph =>
      match load_optional_model w eval_model_path with
      | Except.error e => { status := some e, out := 0, world := w }
      | Except.ok eval_graph =>
        match load_optional_model w optimizer_model_path with
        | Except.error e => { status := some e, out := 0, world := w }
        | Except.ok optimizer_graph =>
          if binds c train_graph && binds_optional c eval_graph
              && binds_optional c optimizer_graph then
            let schedule : LearningRateSchedule :=
              { kind := ScheduleKind.none, warmup_step_count := 0, total_step_count := 0,
                initial_lr := { bits := 0 }, current_step := 0 }
            let s : RefSession :=
              { checkpoint_state := state,
                train_graph := train_graph,
                eval_graph := eval_graph,
                optimizer_graph := optimizer_graph,
                schedule := schedule }
            { status := none,
              out := w.sessions.length,
              world :=
                { checkpoints := w.checkpoints,
                  sessions := w.sessions ++ [s],
                  models := w.models } }
          else failOut w 0 OrtErrorCode.GraphBindingError "parameter absent from checkpoint"

/-- Modelled from the spec: `train_output_count`, resolved "from the graph metadata"
(4.4): the number of declared outputs of the training graph. -/
def TrainingSessionGetTrainingModelOutputCount (w : RefRuntime)
    (sess : OrtTrainingSessionPtr) : RetOut size_t RefRuntime :=
  match w.sessions[sess]? with
  | none => failOut w 0 OrtErrorCode.ORT_INVALID_ARGUMENT "no such training session"
  | some s => { status := none, out := s.train_graph.output_names.length, world := w }

/-- Modelled from the spec: `eval_output_count`, resolved "from the graph metadata"
(4.4): the number of declared outputs of the evaluation graph, none without one. -/
def TrainingSessionGetEvalModelOutputCount (w : RefRuntime)
    (sess : OrtTrainingSessionPtr) : RetOut size_t RefRuntime :=
  match w.sessions[sess]? with
  | none => failOut w 0 OrtErrorCode.ORT_INVALID_ARGUMENT "no such training session"
  | some s =>
    match s.eval_graph with
    | none => { status := none, out := 0, world := w }
    | some g => { status := none, out := g.output_names.length, world := w }

/-- Modelled from the spec: `GetState(include_optimizer_state)` (4.4): "produces a new
Checkpoint State snapshot of the session's current live module tensors (always) and
optimizer tensors (only if requested), plus the checkpoint's property store, by
value-copy".  The live tensors are those of the bound Checkpoint State, which the
session shares by reference (section 3). -/
def GetState (w : RefRuntime) (sess : OrtTrainingSessionPtr)
    (include_optimizer_state : Bool) : RetOut OrtCheckpointStatePtr RefRuntime :=
  match w.sessions[sess]? with
  | none => failOut w 0 OrtErrorCode.ORT_INVALID_ARGUMENT "no such training session"
  | some s =>
    match w.checkpoints[s.checkpoint_state]? with
    | none => failOut w 0 OrtErrorCode.ORT_INVALID_ARGUMENT "no such checkpoint state"
    | some c =>
      let snapshot : RefCheckpointState :=
        { module_checkpoint_state := c.module_checkpoint_state,
          optimizer_checkpoint_state :=
            if include_optimizer_state then c.optimizer_checkpoint_state else [],
          property_bag := c.property_bag }
      { status := none,
        out := w.checkpoints.length,
        world :=
          { checkpoints := w.checkpoints ++ [snapshot],
            sessions := w.sessions,
            models := w.models } }

/-- Modelled from the spec: the table of the native runtime, with the entries above and
every other entry from `rest`. -/
def api (rest : OrtTrainingApi RefRuntime) : OrtTrainingApi RefRuntime :=
  { rest with
    CreateTrainingSession := CreateTrainingSession,
    TrainingSessionGetTrainingModelOutputCount := TrainingSessionGetTrainingModelOutputCount,
    TrainingSessionGetEvalModelOutputCount := TrainingSessionGetEvalModelOutputCount,
    RegisterLinearLRScheduler := RegisterLinearLRScheduler,
    GetState := GetState,
    AddProperty := AddProperty,
    GetProperty := GetProperty }

end Ref

/-! ## Concrete inputs -/

/-- A table over any runtime state whose every call succeeds and leaves the state as it
is; `TrainStep` and `EvalStep` fill as many outputs as they are asked for, output `i`
with the value at address `i`. -/
def idle (W : Type) : OrtTrainingApi W where
  LoadCheckpoint w _ := { status := none, out := 0, world := w }
  SaveCheckpoint w _ _ := { status := none, world := w }
  CreateTrainingSession w _ _ _ _ _ _ := { status := none, out := 0, world := w }
  TrainingSessionGetTrainingModelOutputCount w _ := { status := none, out := 0, world := w }
  TrainingSessionGetEvalModelOutputCount w _ := { status := none, out := 0, world := w }
  LazyResetGrad w _ := { status := none, world := w }
  TrainStep w _ _ _ _ outputs_len _ :=
    { status := none, out := (List.range outputs_len).map some, world := w }
  EvalStep w _ _ _ _ outputs_len _ :=
    { status := none, out := (List.range outputs_len).map some, world := w }
  SetLearningRate w _ _ := { status := none, world := w }
  GetLearningRate w _ := { status := none, out := { bits := 0 }, world := w }
  OptimizerStep w _ _ := { status := none, world := w }
  RegisterLinearLRScheduler w _ _ _ _ := { status := none, world := w }
  SchedulerStep w _ := { status := none, world := w }
  GetState w _ _ := { status := none, out := 0, world := w }
  ExportModelForInferencing w _ _ _ _ := { status := none, world := w }
  SetSeed w _ := { status := none, world := w }
  AddProperty w _ _ _ _ := { status := none, world := w }
  GetProperty w _ _ :=
    { status := none, out := (OrtPropertyType.unknown 0, Pointee.null), world := w }

/-- The table `idle Unit`, except that `TrainStep` and `EvalStep`, having filled as
many outputs as they are asked for, report an `ExecutionError`. -/
def failing_steps : OrtTrainingApi Unit :=
  { idle Unit with
    TrainStep := fun w _ _ _ _ outputs_len _ =>
      { status := some { code := OrtErrorCode.ExecutionError, msg := "graph failed" },
        out := (List.range outputs_len).map some, world := w },
    EvalStep := fun w _ _ _ _ outputs_len _ =>
      { status := some { code := OrtErrorCode.ExecutionError, msg := "graph failed" },
        out := (List.range outputs_len).map some, world := w } }

/-- The tensor of the spec's scenario parameter `"w"`: the floats 1.0 and 2.0. -/
def tensor_w : Tensor := { shape := [2], buffer := [{ bits := 1065353216 }, { bits := 1073741824 }] }

/-- The tensor of the spec's scenario parameter `"b"`: the float 0.0. -/
def tensor_b : Tensor := { shape := [1], buffer := [{ bits := 0 }] }

/-- The checkpoint of the spec's scenario: parameters `"w"` and `"b"`, no optimizer
state, no properties. -/
def checkpoint0 : RefCheckpointState :=
  { module_checkpoint_state :=
      { named_parameters :=
          [([119], { tensor := tensor_w, is_trainable := true }),
           ([98], { tensor := tensor_b, is_trainable := true })] },
    optimizer_checkpoint_state := [],
    property_bag := [] }

/-- A training graph with one input and one output (the loss) over `"w"` and `"b"`. -/
def graph0 : RefGraph :=
  { input_arity := 1, output_names := [[108, 111, 115, 115]], parameter_names := [[119], [98]] }

/-- A runtime holding `checkpoint0` at address 0, no session, and `graph0` at the path
`"t"` (as the C string a wrapper hands over). -/
def runtime0 : RefRuntime :=
  { checkpoints := [checkpoint0], sessions := [], models := [(c_str [116], some graph0)] }

/-- The checkpoint `checkpoint0` with three properties in its store: the integer 10
under "h", the float 3.14f under "pi" and the string "ort" under "f", each as the
wrapper `AddProperty` hands it over. -/
def checkpoint1 : RefCheckpointState :=
  { module_checkpoint_state := checkpoint0.module_checkpoint_state,
    optimizer_checkpoint_state := [],
    property_bag :=
      [{ name := c_str [104], type := OrtPropertyType.OrtIntProperty,
         value := Pointee.int64 { val := 10, lo := by decide, hi := by decide } },
       { name := c_str [112, 105], type := OrtPropertyType.OrtFloatProperty,
         value := Pointee.float { bits := 1078523331 } },
       { name := c_str [102], type := OrtPropertyType.OrtStringProperty,
         value := Pointee.chars [111, 114, 116, 0] }] }

/-- A runtime holding `checkpoint1` at address 0. -/
def runtime1 : RefRuntime :=
  { checkpoints := [checkpoint1], sessions := [], models := [(c_str [116], some graph0)] }

/-- The runtime `runtime0` after a session has been constructed on its checkpoint with
the training graph at "t" and no other graph. -/
def runtime2 : RefRuntime :=
  (TrainingSession.construct (Ref.api (idle RefRuntime)) runtime0 SessionOptions.mk ⟨0⟩
    [116] none none).2

/-- The session constructed in `runtime2`: address 0, one training output, no
evaluation output. -/
def session0 : TrainingSession :=
  { p_ := 0, training_model_output_count_ := 1, eval_model_output_count_ := 0 }

/-- The 64-bit integer -1. -/
def minus_one : int64_t := { val := -1, lo := by decide, hi := by decide }

/-- The 64-bit integer 10. -/
def ten : int64_t := { val := 10, lo := by decide, hi := by decide }

/-- The 64-bit integer 100. -/
def hundred : int64_t := { val := 100, lo := by decide, hi := by decide }

/-- The least 64-bit integer. -/
def int64_min : int64_t := { val := -9223372036854775808, lo := by decide, hi := by decide }

/-- The float 3.14f of the test, by its bit pattern. -/
def pi_f : float := { bits := 1078523331 }

/-! ## Lemmas on the library pieces and on the runtime modelled from the spec -/

theorem throw_or_fst_returns {α : Type} (status : OrtStatusPtr) (value a : α) (w : W) :
    (throw_or status value w).1 = Outcome.returns a ↔ status = none ∧ value = a := by
  cases status <;> simp [throw_or, ThrowOnError]

theorem throw_or_fst_throws {α : Type} (status : OrtStatusPtr) (value : α) (w : W)
    (e : OrtStatus) :
    (throw_or status value w).1 = Outcome.throws e ↔ status = some e := by
  cases status <;> simp [throw_or, ThrowOnError]

theorem throw_or_snd {α : Type} (status : OrtStatusPtr) (value : α) (w : W) :
    (throw_or status value w).2 = w := by
  cases status <;> simp [throw_or, ThrowOnError]

theorem throw_or_traced {α : Type} (status : OrtStatusPtr) (value : α) (w : W)
    (calls : List ApiCall) :
    throw_or status value (w, calls)
      = ((throw_or status value w).1, ((throw_or status value w).2, calls)) := by
  cases status <;> simp [throw_or, ThrowOnError]

theorem emplace_back_nullptr_eq (n : Nat) (output_values : List Value) :
    emplace_back_nullptr n output_values
      = output_values ++ List.replicate n (Value.mk none) := by
  induction n generalizing output_values with
  | zero => simp [emplace_back_nullptr]
  | succ n ih =>
    simp [emplace_back_nullptr, ih, List.replicate_succ]

theorem data_emplace_back_nullptr (n : Nat) :
    data (emplace_back_nullptr n []) = List.replicate n none := by
  simp [emplace_back_nullptr_eq, data]

theorem map_p_emplace_back_nullptr (n : Nat) :
    List.map Value.p_ (emplace_back_nullptr n []) = List.replicate n none := by
  simpa [data] using data_emplace_back_nullptr n

theorem length_emplace_back_nullptr (n : Nat) :
    (emplace_back_nullptr n []).length = n := by
  simp [emplace_back_nullptr_eq]

theorem string_buffer_eq (value : std_string) :
    memcpy (make_unique_char_array (value.length + 1)) (c_str value) value.length
      = value ++ [0] := by
  simp [memcpy, make_unique_char_array, c_str, List.take_append_eq_append_take]
  
theorem takeWhile_nonzero_terminated (value : std_string) (h : (0 : char) ∉ value) :
    List.takeWhile (fun c : char => decide (c ≠ 0)) (value ++ [0]) = value := by
  induction value with
  | nil => simp [List.takeWhile]
  | cons a t ih =>
    have ha : a ≠ 0 := fun h0 => h (by simp [h0])
    have ht : (0 : char) ∉ t := fun h0 => h (by simp [h0])
    have iht := ih ht
    simp only [List.cons_append, List.takeWhile_cons, decide_eq_true ha, if_true, iht]

theorem string_from_c_str_terminated (value : std_string) (h : (0 : char) ∉ value) :
    string_from_c_str (value ++ [0]) = some value := by
  unfold string_from_c_str
  rw [if_pos (by simp), takeWhile_nonzero_terminated value h]

theorem find_put_property (bag : List StoredProperty) (name : CharBuf)
    (type : OrtPropertyType) (value : Pointee) :
    Ref.find_property (Ref.put_property bag { name := name, type := type, value := value })
      name = some { name := name, type := type, value := value } := by
  simp [Ref.find_property, Ref.put_property]

theorem find_property_absent (bag : List StoredProperty) (name : CharBuf)
    (h : ∀ entry ∈ bag, entry.name ≠ name) : Ref.find_property bag name = none := by
  simp only [Ref.find_property, List.find?_eq_none]
  intro entry hmem
  simpa using h entry hmem

theorem Ref_api_StoreKeeps (rest : OrtTrainingApi RefRuntime) : StoreKeeps (Ref.api rest) := by
  intro w state name type value hadd
  have hlt : ∃ c, w.checkpoints[state]? = some c := by
    cases hc : w.checkpoints[state]? with
    | none => simp [Ref.api, Ref.AddProperty, hc, Ref.fail] at hadd
    | some c => exact ⟨c, rfl⟩
  obtain ⟨c, hc⟩ := hlt
  have hlen : state < w.checkpoints.length := by
    rcases List.getElem?_eq_some_iff.mp hc with ⟨hlt, -⟩
    exact hlt
  cases type with
  | unknown raw => simp [Ref.api, Ref.AddProperty, hc, Ref.fail] at hadd
  | OrtIntProperty =>
    simp [Ref.api, Ref.AddProperty, Ref.GetProperty, hc, hlen, find_put_property]
  | OrtFloatProperty =>
    simp [Ref.api, Ref.AddProperty, Ref.GetProperty, hc, hlen, find_put_property]
  | OrtStringProperty =>
    simp [Ref.api, Ref.AddProperty, Ref.GetProperty, hc, hlen, find_put_property]

theorem GetProperty_of_success (api : OrtTrainingApi W) (w : W) (self : CheckpointState)
    (property_name : std_string)
    (h : (api.GetProperty w self.p_ (c_str property_name)).status = none) :
    CheckpointState.GetProperty api w self property_name
      = (property_of (api.GetProperty w self.p_ (c_str property_name)).out.1
          (api.GetProperty w self.p_ (c_str property_name)).out.2,
         (api.GetProperty w self.p_ (c_str property_name)).world) := by
  simp [CheckpointState.GetProperty, h, ThrowOnError]

theorem GetProperty_of_error (api : OrtTrainingApi W) (w : W) (self : CheckpointState)
    (property_name : std_string) (e : OrtStatus)
    (h : (api.GetProperty w self.p_ (c_str property_name)).status = some e) :
    CheckpointState.GetProperty api w self property_name
      = (Outcome.throws e, (api.GetProperty w self.p_ (c_str property_name)).world) := by
  simp [CheckpointState.GetProperty, h, ThrowOnError]

theorem string_read_buffer (value : std_string) (h : (0 : char) ∉ value) :
    string_read (Pointee.chars (value ++ [0])) = some value := by
  simp [string_read, as_chars, string_from_c_str_terminated value h]

theorem property_of_string_returns (payload : Pointee) (p : Property)
    (h : property_of OrtPropertyType.OrtStringProperty payload = Outcome.returns p) :
    ∃ s, string_read payload = some s ∧ p = Property.string s ∧
      single_object_delete_defined payload = true := by
  unfold property_of at h
  cases hs : string_read payload with
  | none => simp [hs] at h
  | some s =>
    simp only [hs, delete_then_return] at h
    by_cases hd : single_object_delete_defined payload = true
    · simp only [hd, if_true, Outcome.returns.injEq] at h
      exact ⟨s, rfl, h.symm, hd⟩
    · simp [hd] at h

theorem property_of_string_not_throws (payload : Pointee) (e : OrtStatus) :
    property_of OrtPropertyType.OrtStringProperty payload ≠ Outcome.throws e := by
  unfold property_of
  cases hs : string_read payload with
  | none => simp
  | some s =>
    simp only [delete_then_return]
    by_cases hd : single_object_delete_defined payload = true <;> simp [hd]

/-- C10: for a string `v` of length `n`, `AddProperty` makes one call into the store, with
the string kind tag and a buffer of `n + 1` bytes whose first `n` bytes are those of `v`
and whose last byte is zero; read back the way `GetProperty` reads a string payload
(lines 159-160, up to the first zero byte), the buffer gives `v` whenever `v` holds no
zero byte. -/
theorem AddProperty_string_buffer (api : OrtTrainingApi W) (w : W) (calls : List ApiCall)
    (self : CheckpointState) (property_name : std_string) (v : std_string) :
    ∃ buffer : CharBuf,
      (CheckpointState.AddProperty (traced api) (w, calls) self property_name
          (Property.string v)).2.2
        = calls ++ [ApiCall.AddProperty self.p_ (c_str property_name)
            OrtPropertyType.OrtStringProperty (Pointee.chars buffer)] ∧
      buffer.length = v.length + 1 ∧
      buffer.take v.length = v ∧
      buffer[v.length]? = some 0 ∧
      ((0 : char) ∉ v → string_read (Pointee.chars buffer) = some v) := by
  refine ⟨v ++ [0], ?_, by simp, by simp, by simp, string_read_buffer v⟩
  simp [CheckpointState.AddProperty, string_buffer_eq, traced, Ret.record, throw_or_snd]

/-- C1, as amended: for every table whose store keeps what it is handed, every
checkpoint state, every property name and every string `v` that holds no zero byte (the
empty string and strings of any length included), in `GetProperty(name)` after
`AddProperty(name, v)` the store reports success, the string kind and a buffer from
which the string of line 160 is read equal to `v`; `GetProperty` throws nothing and can
return no property but the string `v`.  Whether it returns rests on the `delete` of
line 161, on which nothing is stated. -/
theorem AddProperty_GetProperty_string (api : OrtTrainingApi W) (hstore : StoreKeeps api)
    (w : W) (self : CheckpointState) (property_name : std_string) (v : std_string)
    (hv : (0 : char) ∉ v)
    (hadd : (CheckpointState.AddProperty api w self property_name (Property.string v)).1
      = Outcome.returns ()) :
    (api.GetProperty
        (CheckpointState.AddProperty api w self property_name (Property.string v)).2
        self.p_ (c_str property_name)).status = none ∧
    (api.GetProperty
        (CheckpointState.AddProperty api w self property_name (Property.string v)).2
        self.p_ (c_str property_name)).out.1 = OrtPropertyType.OrtStringProperty ∧
    string_read (api.GetProperty
        (CheckpointState.AddProperty api w self property_name (Property.string v)).2
        self.p_ (c_str property_name)).out.2 = some v ∧
    (∀ p : Property,
      (CheckpointState.GetProperty api
          (CheckpointState.AddProperty api w self property_name (Property.string v)).2
          self property_name).1 = Outcome.returns p →
      p = Property.string v) ∧
    (∀ e : OrtStatus,
      (CheckpointState.GetProperty api
          (CheckpointState.AddProperty api w self property_name (Property.string v)).2
          self property_name).1 ≠ Outcome.throws e) := by
  simp only [CheckpointState.AddProperty, string_buffer_eq, throw_or_snd,
    throw_or_fst_returns] at hadd ⊢
  obtain ⟨hst, hout⟩ := hstore w self.p_ (c_str property_name)
    OrtPropertyType.OrtStringProperty (Pointee.chars (v ++ [0])) hadd.1
  rw [GetProperty_of_success api _ self property_name hst, hout]
  refine ⟨hst, rfl, string_read_buffer v hv, ?_, ?_⟩
  · intro p hp
    obtain ⟨s, hs, hps, -⟩ := property_of_string_returns _ p hp
    rw [string_read_buffer v hv] at hs
    rw [hps, ← Option.some.inj hs]
  · intro e
    exact property_of_string_not_throws _ e

/-- C1, the witness: the string "onnxruntime" of the test under the name "f", on the
runtime modelled from the spec: the string read back from the buffer is
"onnxruntime". -/
theorem AddProperty_GetProperty_string_witness :
    StoreKeeps (Ref.api (idle RefRuntime)) ∧
    (CheckpointState.AddProperty (Ref.api (idle RefRuntime)) runtime0 ⟨0⟩ [102]
        (Property.string [111, 110, 110, 120, 114, 117, 110, 116, 105, 109, 101])).1
      = Outcome.returns () ∧
    string_read ((Ref.api (idle RefRuntime)).GetProperty
        (CheckpointState.AddProperty (Ref.api (idle RefRuntime)) runtime0 ⟨0⟩ [102]
          (Property.string [111, 110, 110, 120, 114, 117, 110, 116, 105, 109, 101])).2
        0 (c_str [102])).out.2
      = some [111, 110, 110, 120, 114, 117, 110, 116, 105, 109, 101] :=
  ⟨Ref_api_StoreKeeps (idle RefRuntime), by decide,
   (AddProperty_GetProperty_string (Ref.api (idle RefRuntime))
     (Ref_api_StoreKeeps (idle RefRuntime)) runtime0 ⟨0⟩ [102]
     [111, 110, 110, 120, 114, 117, 110, 116, 105, 109, 101] (by decide)
     (by decide)).2.2.1⟩

/-- C1, the counterexample: on a store that keeps what it is handed, the three-byte
string `a`, zero, `b` is added without error; the string read back from the buffer is
the one-byte string `a`, and `GetProperty` does not return the string that was added. -/
theorem AddProperty_GetProperty_string_zero_byte :
    StoreKeeps (Ref.api (idle RefRuntime)) ∧
    (CheckpointState.AddProperty (Ref.api (idle RefRuntime)) runtime0 ⟨0⟩ [102]
        (Property.string [97, 0, 98])).1 = Outcome.returns () ∧
    string_read ((Ref.api (idle RefRuntime)).GetProperty
        (CheckpointState.AddProperty (Ref.api (idle RefRuntime)) runtime0 ⟨0⟩ [102]
          (Property.string [97, 0, 98])).2 0 (c_str [102])).out.2
      = some [97] ∧
    (CheckpointState.GetProperty (Ref.api (idle RefRuntime))
        (CheckpointState.AddProperty (Ref.api (idle RefRuntime)) runtime0 ⟨0⟩ [102]
          (Property.string [97, 0, 98])).2 ⟨0⟩ [102]).1
      ≠ Outcome.returns (Property.string [97, 0, 98]) :=
  ⟨Ref_api_StoreKeeps (idle RefRuntime), by decide, by decide, by decide⟩

/-- C2: for every table whose store keeps what it is handed, every checkpoint state and
every property name, `GetProperty(name)` after a successful `AddProperty(name, v)`
returns an int64 property holding `v` for every 64-bit integer `v`, and a float property
holding `v` for every 32-bit float `v`. -/
theorem AddProperty_GetProperty_numeric (api : OrtTrainingApi W) (hstore : StoreKeeps api)
    (w : W) (self : CheckpointState) (property_name : std_string) :
    (∀ v : int64_t,
      (CheckpointState.AddProperty api w self property_name (Property.int64 v)).1
          = Outcome.returns () →
      (CheckpointState.GetProperty api
          (CheckpointState.AddProperty api w self property_name (Property.int64 v)).2
          self property_name).1
        = Outcome.returns (Property.int64 v)) ∧
    (∀ v : float,
      (CheckpointState.AddProperty api w self property_name (Property.float v)).1
          = Outcome.returns () →
      (CheckpointState.GetProperty api
          (CheckpointState.AddProperty api w self property_name (Property.float v)).2
          self property_name).1
        = Outcome.returns (Property.float v)) := by
  constructor
  · intro v hadd
    simp only [CheckpointState.AddProperty, throw_or_snd, throw_or_fst_returns] at hadd ⊢
    obtain ⟨hst, hout⟩ := hstore w self.p_ (c_str property_name)
      OrtPropertyType.OrtIntProperty (Pointee.int64 v) hadd.1
    rw [GetProperty_of_success api _ self property_name hst, hout]
    rfl
  · intro v hadd
    simp only [CheckpointState.AddProperty, throw_or_snd, throw_or_fst_returns] at hadd ⊢
    obtain ⟨hst, hout⟩ := hstore w self.p_ (c_str property_name)
      OrtPropertyType.OrtFloatProperty (Pointee.float v) hadd.1
    rw [GetProperty_of_success api _ self property_name hst, hout]
    rfl

/-- C2, the witness: the least 64-bit integer, -1, and the float 3.14f of the test, on the
runtime modelled from the spec. -/
theorem AddProperty_GetProperty_numeric_witness :
    StoreKeeps (Ref.api (idle RefRuntime)) ∧
    (CheckpointState.GetProperty (Ref.api (idle RefRuntime))
        (CheckpointState.AddProperty (Ref.api (idle RefRuntime)) runtime0 ⟨0⟩ [104]
          (Property.int64 int64_min)).2 ⟨0⟩ [104]).1
      = Outcome.returns (Property.int64 int64_min) ∧
    (CheckpointState.GetProperty (Ref.api (idle RefRuntime))
        (CheckpointState.AddProperty (Ref.api (idle RefRuntime)) runtime0 ⟨0⟩ [104]
          (Property.int64 minus_one)).2 ⟨0⟩ [104]).1
      = Outcome.returns (Property.int64 minus_one) ∧
    (CheckpointState.GetProperty (Ref.api (idle RefRuntime))
        (CheckpointState.AddProperty (Ref.api (idle RefRuntime)) runtime0 ⟨0⟩ [112, 105]
          (Property.float pi_f)).2 ⟨0⟩ [112, 105]).1
      = Outcome.returns (Property.float pi_f) :=
  ⟨Ref_api_StoreKeeps (idle RefRuntime),
   (AddProperty_GetProperty_numeric (Ref.api (idle RefRuntime))
      (Ref_api_StoreKeeps (idle RefRuntime)) runtime0 ⟨0⟩ [104]).1 int64_min (by decide),
   (AddProperty_GetProperty_numeric (Ref.api (idle RefRuntime))
      (Ref_api_StoreKeeps (idle RefRuntime)) runtime0 ⟨0⟩ [104]).1 minus_one (by decide),
   (AddProperty_GetProperty_numeric (Ref.api (idle RefRuntime))
      (Ref_api_StoreKeeps (idle RefRuntime)) runtime0 ⟨0⟩ [112, 105]).2 pi_f (by decide)⟩

/-- The kind of the property `GetProperty` returns follows the tag the store reports:
an int64 property exactly under the integer tag with an `int64_t` payload, a float
property exactly under the float tag with a `float` payload; a string property only
under the string tag, and then only when the payload is one the single-object `delete`
of line 161 is defined for; no property of another kind; `ORT_INVALID_ARGUMENT` exactly
for a tag outside the three kinds. -/
theorem GetProperty_kind_follows_tag (api : OrtTrainingApi W) (w w1 : W)
    (self : CheckpointState) (property_name : std_string) (tag : OrtPropertyType)
    (payload : Pointee)
    (h : api.GetProperty w self.p_ (c_str property_name)
      = { status := none, out := (tag, payload), world := w1 }) :
    (∀ v : int64_t,
      (CheckpointState.GetProperty api w self property_name).1
          = Outcome.returns (Property.int64 v)
        ↔ tag = OrtPropertyType.OrtIntProperty ∧ payload = Pointee.int64 v) ∧
    (∀ v : float,
      (CheckpointState.GetProperty api w self property_name).1
          = Outcome.returns (Property.float v)
        ↔ tag = OrtPropertyType.OrtFloatProperty ∧ payload = Pointee.float v) ∧
    (∀ v : std_string,
      (CheckpointState.GetProperty api w self property_name).1
          = Outcome.returns (Property.string v)
        ↔ tag = OrtPropertyType.OrtStringProperty ∧ string_read payload = some v ∧
          single_object_delete_defined payload = true) ∧
    (CheckpointState.GetProperty api w self property_name).1
      ≠ Outcome.returns Property.valueless ∧
    (∀ e : OrtStatus,
      (CheckpointState.GetProperty api w self property_name).1 = Outcome.throws e
        ↔ (∃ raw, tag = OrtPropertyType.unknown raw) ∧
          e = { code := OrtErrorCode.ORT_INVALID_ARGUMENT,
                msg := "Unknown property type received." }) := by
  have hst : (api.GetProperty w self.p_ (c_str property_name)).status = none := by rw [h]
  rw [GetProperty_of_success api w self property_name hst, h]
  cases tag <;> cases payload <;>
    simp [property_of, deref_int64, deref_float, string_read, as_chars, delete_then_return,
      single_object_delete_defined, ThrowStatus, eq_comm]
  all_goals
    cases hs : string_from_c_str _ <;> simp [eq_comm]

/-- An instance of the lemma: the store holds the integer 10 under "h"; `GetProperty`
returns it as an int64 property. -/
theorem GetProperty_kind_follows_tag_instance :
    (Ref.api (idle RefRuntime)).GetProperty runtime1 0 (c_str [104])
      = { status := none, out := (OrtPropertyType.OrtIntProperty, Pointee.int64 ten),
          world := runtime1 } ∧
    (CheckpointState.GetProperty (Ref.api (idle RefRuntime)) runtime1 ⟨0⟩ [104]).1
      = Outcome.returns (Property.int64 ten) :=
  ⟨by decide,
   ((GetProperty_kind_follows_tag (Ref.api (idle RefRuntime)) runtime1 runtime1 ⟨0⟩ [104]
      OrtPropertyType.OrtIntProperty (Pointee.int64 ten) (by decide)).1 ten).2 ⟨rfl, rfl⟩⟩

/-- C7, at the failing input: the store reports the string kind with the array of the
four bytes `o`, `r`, `t`, zero, the buffer `AddProperty` hands over for the string
"ort".  `GetProperty` reads the string "ort" from it, and then applies a single-object
`delete` to the array: it has no defined outcome, where a string property is due.  The
same holds right after `AddProperty("f", "ort")` on a store that keeps what it is
handed. -/
theorem GetProperty_string_array_undefined :
    (Ref.api (idle RefRuntime)).GetProperty runtime1 0 (c_str [102])
      = { status := none,
          out := (OrtPropertyType.OrtStringProperty, Pointee.chars [111, 114, 116, 0]),
          world := runtime1 } ∧
    string_read (Pointee.chars [111, 114, 116, 0]) = some [111, 114, 116] ∧
    single_object_delete_defined (Pointee.chars [111, 114, 116, 0]) = false ∧
    (CheckpointState.GetProperty (Ref.api (idle RefRuntime)) runtime1 ⟨0⟩ [102]).1
      = Outcome.undefined ∧
    (CheckpointState.AddProperty (Ref.api (idle RefRuntime)) runtime0 ⟨0⟩ [102]
        (Property.string [111, 114, 116])).1 = Outcome.returns () ∧
    (CheckpointState.GetProperty (Ref.api (idle RefRuntime))
        (CheckpointState.AddProperty (Ref.api (idle RefRuntime)) runtime0 ⟨0⟩ [102]
          (Property.string [111, 114, 116])).2 ⟨0⟩ [102]).1
      = Outcome.undefined := by
  decide

/-- C3: on the runtime modelled from the spec, for every live checkpoint state and every
property name under which its store holds nothing, `GetProperty(name)` throws
`NotFoundError`, returns no property and leaves the runtime as it was; and over every
table, when the native call reports an error the wrapper throws that error whatever
stands in the kind tag and the payload, which it does not read. -/
theorem GetProperty_absent_name (rest : OrtTrainingApi RefRuntime) (w : RefRuntime)
    (self : CheckpointState) (property_name : std_string) (c : RefCheckpointState)
    (hlive : w.checkpoints[self.p_]? = some c)
    (habsent : ∀ entry ∈ c.property_bag, entry.name ≠ c_str property_name) :
    CheckpointState.GetProperty (Ref.api rest) w self property_name
      = (Outcome.throws { code := OrtErrorCode.NotFoundError,
                          msg := "no property of that name" }, w) ∧
    (∀ (V : Type) (api : OrtTrainingApi V) (v v1 : V) (e : OrtStatus)
      (tag : OrtPropertyType) (payload : Pointee),
      api.GetProperty v self.p_ (c_str property_name)
          = { status := some e, out := (tag, payload), world := v1 } →
      CheckpointState.GetProperty api v self property_name = (Outcome.throws e, v1)) := by
  constructor
  · have hfind := find_property_absent c.property_bag (c_str property_name) habsent
    simp [CheckpointState.GetProperty, Ref.api, Ref.GetProperty, hlive, hfind,
      Ref.failOut, ThrowOnError]
  · intro V api v v1 e tag payload h
    have hst : (api.GetProperty v self.p_ (c_str property_name)).status = some e := by
      rw [h]
    rw [GetProperty_of_error api v self property_name e hst, h]

/-- C3, the witness: the store of `runtime1` holds "h", "pi" and "f"; asking for "x"
throws `NotFoundError`. -/
theorem GetProperty_absent_name_witness :
    CheckpointState.GetProperty (Ref.api (idle RefRuntime)) runtime1 ⟨0⟩ [120]
      = (Outcome.throws { code := OrtErrorCode.NotFoundError,
                          msg := "no property of that name" }, runtime1) :=
  (GetProperty_absent_name (idle RefRuntime) runtime1 ⟨0⟩ [120] checkpoint1 (by decide)
    (by decide)).1

theorem stored_through_length (output_values filled : List Value)
    (written : List OrtValuePtr) (h : stored_through output_values written = some filled) :
    filled.length = output_values.length ∧ written.length ≤ output_values.length ∧
    filled = written.map Value.mk ++ output_values.drop written.length := by
  unfold stored_through at h
  split at h
  · rename_i hle
    simp only [Option.some.injEq] at h
    subst h
    refine ⟨?_, hle, rfl⟩
    simp [List.length_append, List.length_drop]
    omega
  · exact absurd h (by simp)

theorem step_result_returns (output_values filled : List Value)
    (r : RetOut (List OrtValuePtr) W) (w1 : W)
    (h : step_result output_values r = (Outcome.returns filled, w1)) :
    r.status = none ∧ r.world = w1 ∧ stored_through output_values r.out = some filled := by
  unfold step_result at h
  cases hs : stored_through output_values r.out with
  | none => simp [hs] at h
  | some f =>
    rw [hs] at h
    cases hst : r.status with
    | none =>
      simp only [hst, throw_or, ThrowOnError, Prod.mk.injEq, Outcome.returns.injEq] at h
      exact ⟨rfl, h.2, by rw [h.1]⟩
    | some e => simp [hst, throw_or, ThrowOnError] at h

theorem step_result_throws (output_values : List Value)
    (r : RetOut (List OrtValuePtr) W) (e : OrtStatus) :
    (step_result output_values r).1 = Outcome.throws e
      ↔ r.status = some e ∧ r.out.length ≤ output_values.length := by
  unfold step_result stored_through
  by_cases hle : r.out.length ≤ output_values.length
  · simp [hle, throw_or_fst_throws]
  · simp [hle]

theorem step_result_traced (output_values : List Value) (r : RetOut (List OrtValuePtr) W)
    (calls : List ApiCall) (call : ApiCall) :
    step_result output_values (r.record calls call)
      = ((step_result output_values r).1,
         ((step_result output_values r).2, calls ++ [call])) := by
  unfold step_result
  cases hs : stored_through output_values r.out with
  | none => simp [RetOut.record, hs]
  | some f => simp [RetOut.record, hs, throw_or_traced]

/-- C5: for every session and every input list, `TrainStep` makes one call into the
table, asking for `training_model_output_count_` outputs, with an output array of that
many null pointers and with the inputs in their given order, `input_values.size()` of
them.  When the call reports success, having stored no more outputs than it was asked
for, `TrainStep` returns exactly `training_model_output_count_` values: the ones the
call stored, in the order it stored them, any it left unfilled staying null; and
whenever `TrainStep` returns, it returns that many values.  The count is the one the
constructor read from the table. -/
theorem TrainStep_output_arity (api : OrtTrainingApi W) (w : W) (calls : List ApiCall)
    (self : TrainingSession) (input_values : List Value) :
    (TrainingSession.TrainStep (traced api) (w, calls) self input_values).2.2
      = calls ++ [ApiCall.TrainStep self.p_ RunOptions.mk input_values.length
          (input_values.map Value.p_) self.training_model_output_count_
          (List.replicate self.training_model_output_count_ none)] ∧
    (∀ (written : List OrtValuePtr) (w1 : W),
      api.TrainStep w self.p_ RunOptions.mk input_values.length
          (input_values.map Value.p_) self.training_model_output_count_
          (List.replicate self.training_model_output_count_ none)
        = { status := none, out := written, world := w1 } →
      written.length ≤ self.training_model_output_count_ →
      TrainingSession.TrainStep api w self input_values
        = (Outcome.returns
            (written.map Value.mk
              ++ List.replicate (self.training_model_output_count_ - written.length)
                  (Value.mk none)), w1) ∧
      (written.map Value.mk
          ++ List.replicate (self.training_model_output_count_ - written.length)
              (Value.mk none)).length
        = self.training_model_output_count_) ∧
    (∀ (output_values : List Value) (w1 : W),
      TrainingSession.TrainStep api w self input_values
          = (Outcome.returns output_values, w1) →
      output_values.length = self.training_model_output_count_) ∧
    (∀ (w0 w1 : W) (session_options : SessionOptions) (checkpoint_state : CheckpointState)
      (train_model_path : std_string) (eval_model_path optimizer_model_path : Option std_string)
      (session : TrainingSession),
      TrainingSession.construct api w0 session_options checkpoint_state train_model_path
          eval_model_path optimizer_model_path = (Outcome.returns session, w1) →
      session.training_model_output_count_
        = (api.TrainingSessionGetTrainingModelOutputCount
            (api.CreateTrainingSession w0 Env.mk session_options checkpoint_state.p_
              (c_str train_model_path) (eval_model_path.map c_str)
              (optimizer_model_path.map c_str)).world
            session.p_).out) := by
  refine ⟨?_, ?_, ?_, ?_⟩
  · simp [TrainingSession.TrainStep, traced, step_result_traced, data,
      map_p_emplace_back_nullptr]
  · intro written w1 hcall hle
    constructor
    · have hle1 : written.length
          ≤ (emplace_back_nullptr self.training_model_output_count_ []).length := by
        rw [length_emplace_back_nullptr]
        exact hle
      simp only [TrainingSession.TrainStep, data, map_p_emplace_back_nullptr, hcall,
        step_result, stored_through, if_pos hle1, throw_or, ThrowOnError]
      simp only [emplace_back_nullptr_eq, List.nil_append, List.drop_replicate]
    · simp only [List.length_append, List.length_map, List.length_replicate]
      omega
  · intro output_values w1 h
    simp only [TrainingSession.TrainStep] at h
    obtain ⟨-, -, hs⟩ := step_result_returns _ _ _ _ h
    obtain ⟨hlen, -, -⟩ := stored_through_length _ _ _ hs
    rw [hlen, length_emplace_back_nullptr]
  · intro w0 w1 session_options checkpoint_state train_model_path eval_model_path
      optimizer_model_path session h
    unfold TrainingSession.construct at h
    simp only at h
    cases h1 : (api.CreateTrainingSession w0 Env.mk session_options checkpoint_state.p_
        (c_str train_model_path) (eval_model_path.map c_str)
        (optimizer_model_path.map c_str)).status with
    | some e => simp [h1, ThrowOnError] at h
    | none =>
      simp only [h1, ThrowOnError] at h
      cases h2 : (api.TrainingSessionGetTrainingModelOutputCount
          (api.CreateTrainingSession w0 Env.mk session_options checkpoint_state.p_
            (c_str train_model_path) (eval_model_path.map c_str)
            (optimizer_model_path.map c_str)).world
          (api.CreateTrainingSession w0 Env.mk session_options checkpoint_state.p_
            (c_str train_model_path) (eval_model_path.map c_str)
            (optimizer_model_path.map c_str)).out).status with
      | some e => simp [h2] at h
      | none =>
        simp only [h2] at h
        have h3 := congrArg Prod.fst h
        rw [throw_or_fst_returns] at h3
        rw [← h3.2]

theorem push_back_c_strs_eq (graph_output_names : List std_string)
    (output_names : List CharBuf) :
    push_back_c_strs graph_output_names output_names
      = output_names ++ graph_output_names.map c_str := by
  induction graph_output_names generalizing output_names with
  | nil => simp [push_back_c_strs]
  | cons a t ih => simp [push_back_c_strs, ih]

theorem step_result_returns_iff (n : Nat) (r : RetOut (List OrtValuePtr) W)
    (vals : List Value) :
    (step_result (emplace_back_nullptr n []) r).1 = Outcome.returns vals
      ↔ r.status = none ∧ r.out.length ≤ n ∧
        vals = r.out.map Value.mk ++ List.replicate (n - r.out.length) (Value.mk none) := by
  unfold step_result stored_through
  rw [length_emplace_back_nullptr]
  by_cases hle : r.out.length ≤ n
  · simp only [if_pos hle, throw_or_fst_returns, emplace_back_nullptr_eq, List.nil_append,
      List.drop_replicate]
    constructor
    · rintro ⟨h1, h2⟩
      exact ⟨h1, hle, h2.symm⟩
    · rintro ⟨h1, -, h2⟩
      exact ⟨h1, h2.symm⟩
  · simp [hle]

/-- The calls and outcomes of the twelve wrappers `TrainStep`, `EvalStep`,
`LazyResetGrad`, `OptimizerStep`, `SchedulerStep`, `SetLearningRate`, `GetLearningRate`,
`RegisterLinearLRScheduler`, `GetState`, `ExportModelForInferencing`, `LoadCheckpoint`
and `SaveCheckpoint`.  Each makes exactly one call into the table, the entry of its own
name (run over the traced table it behaves as over the plain one and the record of calls
grows by that one call).  Each of the ten that hand over no output array throws an
error exactly when that call reports it, the same error, and returns, with the value
the call produced, exactly when the call reports none.  `TrainStep` and `EvalStep` do
so when the call stored no more outputs than their output array holds, and have no
defined outcome otherwise; the array of `EvalStep` holds `eval_model_output_count_`
elements while its call asks for `training_model_output_count_`. -/
theorem wrappers_call_once_and_surface_errors (api : OrtTrainingApi W) (w : W)
    (calls : List ApiCall) :
    (∀ (self : TrainingSession) (input_values : List Value),
      TrainingSession.TrainStep (traced api) (w, calls) self input_values
          = ((TrainingSession.TrainStep api w self input_values).1,
             ((TrainingSession.TrainStep api w self input_values).2,
              calls ++ [ApiCall.TrainStep self.p_ RunOptions.mk input_values.length
                (input_values.map Value.p_) self.training_model_output_count_
                (List.replicate self.training_model_output_count_ none)])) ∧
        (∀ e : OrtStatus, (TrainingSession.TrainStep api w self input_values).1 = Outcome.throws e
          ↔ (api.TrainStep w self.p_ RunOptions.mk input_values.length
                (input_values.map Value.p_) self.training_model_output_count_
                (List.replicate self.training_model_output_count_ none)).status = some e ∧
            (api.TrainStep w self.p_ RunOptions.mk input_values.length
                (input_values.map Value.p_) self.training_model_output_count_
                (List.replicate self.training_model_output_count_ none)).out.length
              ≤ self.training_model_output_count_) ∧
        (∀ a : List Value, (TrainingSession.TrainStep api w self input_values).1 = Outcome.returns a
          ↔ (api.TrainStep w self.p_ RunOptions.mk input_values.length
                (input_values.map Value.p_) self.training_model_output_count_
                (List.replicate self.training_model_output_count_ none)).status = none ∧
            (api.TrainStep w self.p_ RunOptions.mk input_values.length
                (input_values.map Value.p_) self.training_model_output_count_
                (List.replicate self.training_model_output_count_ none)).out.length
              ≤ self.training_model_output_count_ ∧
            a = (api.TrainStep w self.p_ RunOptions.mk input_values.length
                (input_values.map Value.p_) self.training_model_output_count_
                (List.replicate self.training_model_output_count_ none)).out.map Value.mk
              ++ List.replicate
                (self.training_model_output_count_
                  - (api.TrainStep w self.p_ RunOptions.mk input_values.length
                (input_values.map Value.p_) self.training_model_output_count_
                (List.replicate self.training_model_output_count_ none)).out.length)
                (Value.mk none))) ∧
    (∀ (self : TrainingSession) (input_values : List Value),
      TrainingSession.EvalStep (traced api) (w, calls) self input_values
          = ((TrainingSession.EvalStep api w self input_values).1,
             ((TrainingSession.EvalStep api w self input_values).2,
              calls ++ [ApiCall.EvalStep self.p_ RunOptions.mk input_values.length
                (input_values.map Value.p_) self.training_model_output_count_
                (List.replicate self.eval_model_output_count_ none)])) ∧
        (∀ e : OrtStatus, (TrainingSession.EvalStep api w self input_values).1 = Outcome.throws e
          ↔ (api.EvalStep w self.p_ RunOptions.mk input_values.length
                (input_values.map Value.p_) self.training_model_output_count_
                (List.replicate self.eval_model_output_count_ none)).status = some e ∧
            (api.EvalStep w self.p_ RunOptions.mk input_values.length
                (input_values.map Value.p_) self.training_model_output_count_
                (List.replicate self.eval_model_output_count_ none)).out.length
              ≤ self.eval_model_output_count_) ∧
        (∀ a : List Value, (TrainingSession.EvalStep api w self input_values).1 = Outcome.returns a
          ↔ (api.EvalStep w self.p_ RunOptions.mk input_values.length
                (input_values.map Value.p_) self.training_model_output_count_
                (List.replicate self.eval_model_output_count_ none)).status = none ∧
            (api.EvalStep w self.p_ RunOptions.mk input_values.length
                (input_values.map Value.p_) self.training_model_output_count_
                (List.replicate self.eval_model_output_count_ none)).out.length
              ≤ self.eval_model_output_count_ ∧
            a = (api.EvalStep w self.p_ RunOptions.mk input_values.length
                (input_values.map Value.p_) self.training_model_output_count_
                (List.replicate self.eval_model_output_count_ none)).out.map Value.mk
              ++ List.replicate
                (self.eval_model_output_count_
                  - (api.EvalStep w self.p_ RunOptions.mk input_values.length
                (input_values.map Value.p_) self.training_model_output_count_
                (List.replicate self.eval_model_output_count_ none)).out.length)
                (Value.mk none))) ∧
    (∀ (self : TrainingSession),
      TrainingSession.LazyResetGrad (traced api) (w, calls) self
          = ((TrainingSession.LazyResetGrad api w self).1,
             ((TrainingSession.LazyResetGrad api w self).2,
              calls ++ [ApiCall.LazyResetGrad self.p_])) ∧
        (∀ e : OrtStatus, (TrainingSession.LazyResetGrad api w self).1 = Outcome.throws e
          ↔ (api.LazyResetGrad w self.p_).status = some e) ∧
        ((TrainingSession.LazyResetGrad api w self).1 = Outcome.returns ()
          ↔ (api.LazyResetGrad w self.p_).status = none)) ∧
    (∀ (self : TrainingSession),
      TrainingSession.OptimizerStep (traced api) (w, calls) self
          = ((TrainingSession.OptimizerStep api w self).1,
             ((TrainingSession.OptimizerStep api w self).2,
              calls ++ [ApiCall.OptimizerStep self.p_ RunOptions.mk])) ∧
        (∀ e : OrtStatus, (TrainingSession.OptimizerStep api w self).1 = Outcome.throws e
          ↔ (api.OptimizerStep w self.p_ RunOptions.mk).status = some e) ∧
        ((TrainingSession.OptimizerStep api w self).1 = Outcome.returns ()
          ↔ (api.OptimizerStep w self.p_ RunOptions.mk).status = none)) ∧
    (∀ (self : TrainingSession),
      TrainingSession.SchedulerStep (traced api) (w, calls) self
          = ((TrainingSession.SchedulerStep api w self).1,
             ((TrainingSession.SchedulerStep api w self).2,
              calls ++ [ApiCall.SchedulerStep self.p_])) ∧
        (∀ e : OrtStatus, (TrainingSession.SchedulerStep api w self).1 = Outcome.throws e
          ↔ (api.SchedulerStep w self.p_).status = some e) ∧
        ((TrainingSession.SchedulerStep api w self).1 = Outcome.returns ()
          ↔ (api.SchedulerStep w self.p_).status = none)) ∧
    (∀ (self : TrainingSession) (learning_rate : float),
      TrainingSession.SetLearningRate (traced api) (w, calls) self learning_rate
          = ((TrainingSession.SetLearningRate api w self learning_rate).1,
             ((TrainingSession.SetLearningRate api w self learning_rate).2,
              calls ++ [ApiCall.SetLearningRate self.p_ learning_rate])) ∧
        (∀ e : OrtStatus, (TrainingSession.SetLearningRate api w self learning_rate).1 = Outcome.throws e
          ↔ (api.SetLearningRate w self.p_ learning_rate).status = some e) ∧
        ((TrainingSession.SetLearningRate api w self learning_rate).1 = Outcome.returns ()
          ↔ (api.SetLearningRate w self.p_ learning_rate).status = none)) ∧
    (∀ (self : TrainingSession),
      TrainingSession.GetLearningRate (traced api) (w, calls) self
          = ((TrainingSession.GetLearningRate api w self).1,
             ((TrainingSession.GetLearningRate api w self).2,
              calls ++ [ApiCall.GetLearningRate self.p_])) ∧
        (∀ e : OrtStatus, (TrainingSession.GetLearningRate api w self).1 = Outcome.throws e
          ↔ (api.GetLearningRate w self.p_).status = some e) ∧
        (∀ a : float, (TrainingSession.GetLearningRate api w self).1 = Outcome.returns a
          ↔ (api.GetLearningRate w self.p_).status = none ∧
            (api.GetLearningRate w self.p_).out = a)) ∧
    (∀ (self : TrainingSession) (warmup_step_count total_step_count : int64_t)
        (initial_lr : float),
      TrainingSession.RegisterLinearLRScheduler (traced api) (w, calls) self warmup_step_count
            total_step_count initial_lr
          = ((TrainingSession.RegisterLinearLRScheduler api w self warmup_step_count
            total_step_count initial_lr).1,
             ((TrainingSession.RegisterLinearLRScheduler api w self warmup_step_count
            total_step_count initial_lr).2,
              calls ++ [ApiCall.RegisterLinearLRScheduler self.p_ warmup_step_count
                total_step_count initial_lr])) ∧
        (∀ e : OrtStatus, (TrainingSession.RegisterLinearLRScheduler api w self warmup_step_count
            total_step_count initial_lr).1 = Outcome.throws e
          ↔ (api.RegisterLinearLRScheduler w self.p_ warmup_step_count total_step_count
              initial_lr).status = some e) ∧
        ((TrainingSession.RegisterLinearLRScheduler api w self warmup_step_count
            total_step_count initial_lr).1 = Outcome.returns ()
          ↔ (api.RegisterLinearLRScheduler w self.p_ warmup_step_count total_step_count
              initial_lr).status = none)) ∧
    (∀ (self : TrainingSession) (include_optimizer_state : Bool),
      TrainingSession.GetState (traced api) (w, calls) self include_optimizer_state
          = ((TrainingSession.GetState api w self include_optimizer_state).1,
             ((TrainingSession.GetState api w self include_optimizer_state).2,
              calls ++ [ApiCall.GetState self.p_ include_optimizer_state])) ∧
        (∀ e : OrtStatus, (TrainingSession.GetState api w self include_optimizer_state).1 = Outcome.throws e
          ↔ (api.GetState w self.p_ include_optimizer_state).status = some e) ∧
        (∀ a : CheckpointState, (TrainingSession.GetState api w self include_optimizer_state).1 = Outcome.returns a
          ↔ (api.GetState w self.p_ include_optimizer_state).status = none ∧
            CheckpointState.mk (api.GetState w self.p_ include_optimizer_state).out = a)) ∧
    (∀ (self : TrainingSession) (inference_model_path : std_string)
        (graph_output_names : List std_string),
      TrainingSession.ExportModelForInferencing (traced api) (w, calls) self inference_model_path
            graph_output_names
          = ((TrainingSession.ExportModelForInferencing api w self inference_model_path
            graph_output_names).1,
             ((TrainingSession.ExportModelForInferencing api w self inference_model_path
            graph_output_names).2,
              calls ++ [ApiCall.ExportModelForInferencing self.p_ (c_str inference_model_path)
                graph_output_names.length (graph_output_names.map c_str)])) ∧
        (∀ e : OrtStatus, (TrainingSession.ExportModelForInferencing api w self inference_model_path
            graph_output_names).1 = Outcome.throws e
          ↔ (api.ExportModelForInferencing w self.p_ (c_str inference_model_path)
              graph_output_names.length (graph_output_names.map c_str)).status = some e) ∧
        ((TrainingSession.ExportModelForInferencing api w self inference_model_path
            graph_output_names).1 = Outcome.returns ()
          ↔ (api.ExportModelForInferencing w self.p_ (c_str inference_model_path)
              graph_output_names.length (graph_output_names.map c_str)).status = none)) ∧
    (∀ (path_to_checkpoint : std_string),
      CheckpointState.LoadCheckpoint (traced api) (w, calls) path_to_checkpoint
          = ((CheckpointState.LoadCheckpoint api w path_to_checkpoint).1,
             ((CheckpointState.LoadCheckpoint api w path_to_checkpoint).2,
              calls ++ [ApiCall.LoadCheckpoint (c_str path_to_checkpoint)])) ∧
        (∀ e : OrtStatus, (CheckpointState.LoadCheckpoint api w path_to_checkpoint).1 = Outcome.throws e
          ↔ (api.LoadCheckpoint w (c_str path_to_checkpoint)).status = some e) ∧
        (∀ a : CheckpointState, (CheckpointState.LoadCheckpoint api w path_to_checkpoint).1 = Outcome.returns a
          ↔ (api.LoadCheckpoint w (c_str path_to_checkpoint)).status = none ∧
            CheckpointState.mk (api.LoadCheckpoint w (c_str path_to_checkpoint)).out = a)) ∧
    (∀ (checkpoint_states : CheckpointState) (path_to_checkpoint : std_string),
      CheckpointState.SaveCheckpoint (traced api) (w, calls) checkpoint_states
            path_to_checkpoint
          = ((CheckpointState.SaveCheckpoint api w checkpoint_states
            path_to_checkpoint).1,
             ((CheckpointState.SaveCheckpoint api w checkpoint_states
            path_to_checkpoint).2,
              calls ++ [ApiCall.SaveCheckpoint checkpoint_states.p_ (c_str path_to_checkpoint)])) ∧
        (∀ e : OrtStatus, (CheckpointState.SaveCheckpoint api w checkpoint_states
            path_to_checkpoint).1 = Outcome.throws e
          ↔ (api.SaveCheckpoint w checkpoint_states.p_ (c_str path_to_checkpoint)).status = some e) ∧
        ((CheckpointState.SaveCheckpoint api w checkpoint_states
            path_to_checkpoint).1 = Outcome.returns ()
          ↔ (api.SaveCheckpoint w checkpoint_states.p_ (c_str path_to_checkpoint)).status = none)) := by
  refine ⟨?_, ?_, ?_, ?_, ?_, ?_, ?_, ?_, ?_, ?_, ?_, ?_⟩
  · intro self input_values
    refine ⟨?_, ?_, ?_⟩
    · simp [TrainingSession.TrainStep, traced, step_result_traced, data,
        map_p_emplace_back_nullptr]
    · intro e
      simp [TrainingSession.TrainStep, step_result_throws, data,
        map_p_emplace_back_nullptr, length_emplace_back_nullptr]
    · intro a
      simp only [TrainingSession.TrainStep, data, map_p_emplace_back_nullptr,
        step_result_returns_iff]
  · intro self input_values
    refine ⟨?_, ?_, ?_⟩
    · simp [TrainingSession.EvalStep, traced, step_result_traced, data,
        map_p_emplace_back_nullptr]
    · intro e
      simp [TrainingSession.EvalStep, step_result_throws, data,
        map_p_emplace_back_nullptr, length_emplace_back_nullptr]
    · intro a
      simp only [TrainingSession.EvalStep, data, map_p_emplace_back_nullptr,
        step_result_returns_iff]
  · intro self
    simp [TrainingSession.LazyResetGrad, traced, Ret.record, throw_or_traced,
      throw_or_fst_throws, throw_or_fst_returns]
  · intro self
    simp [TrainingSession.OptimizerStep, traced, Ret.record, throw_or_traced,
      throw_or_fst_throws, throw_or_fst_returns]
  · intro self
    simp [TrainingSession.SchedulerStep, traced, Ret.record, throw_or_traced,
      throw_or_fst_throws, throw_or_fst_returns]
  · intro self learning_rate
    simp [TrainingSession.SetLearningRate, traced, Ret.record, throw_or_traced,
      throw_or_fst_throws, throw_or_fst_returns]
  · intro self
    simp [TrainingSession.GetLearningRate, traced, RetOut.record, throw_or_traced,
      throw_or_fst_throws, throw_or_fst_returns]
  · intro self warmup_step_count total_step_count initial_lr
    simp [TrainingSession.RegisterLinearLRScheduler, traced, Ret.record, throw_or_traced,
      throw_or_fst_throws, throw_or_fst_returns]
  · intro self include_optimizer_state
    simp [TrainingSession.GetState, traced, RetOut.record, throw_or_traced,
      throw_or_fst_throws, throw_or_fst_returns]
  · intro self inference_model_path graph_output_names
    simp [TrainingSession.ExportModelForInferencing, traced, Ret.record, throw_or_traced,
      throw_or_fst_throws, throw_or_fst_returns, push_back_c_strs_eq]
  · intro path_to_checkpoint
    simp [CheckpointState.LoadCheckpoint, traced, RetOut.record, throw_or_traced,
      throw_or_fst_throws, throw_or_fst_returns]
  · intro checkpoint_states path_to_checkpoint
    simp [CheckpointState.SaveCheckpoint, traced, Ret.record, throw_or_traced,
      throw_or_fst_throws, throw_or_fst_returns]

/-- C9, at the failing input: a session whose training graph has two outputs and whose
evaluation graph has one, and a table whose `EvalStep` and `TrainStep` fill the outputs
they are asked for and then report an `ExecutionError`.  `EvalStep` makes its one call,
asking for two outputs with an array of one; the call reports the error, but it has
stored past the array, and `EvalStep` has no defined outcome where the error is due.
The sibling `TrainStep`, whose array has the length it asks for, throws the error. -/
theorem EvalStep_error_after_overrun :
    (TrainingSession.EvalStep (traced failing_steps) ((), []) ⟨0, 2, 1⟩ []).2.2
      = [ApiCall.EvalStep 0 RunOptions.mk 0 [] 2 [none]] ∧
    (failing_steps.EvalStep () 0 RunOptions.mk 0 [] 2 [none]).status
      = some { code := OrtErrorCode.ExecutionError, msg := "graph failed" } ∧
    (failing_steps.EvalStep () 0 RunOptions.mk 0 [] 2 [none]).out = [some 0, some 1] ∧
    (TrainingSession.EvalStep failing_steps () ⟨0, 2, 1⟩ []).1 = Outcome.undefined ∧
    (TrainingSession.TrainStep failing_steps () ⟨0, 2, 1⟩ []).1
      = Outcome.throws { code := OrtErrorCode.ExecutionError, msg := "graph failed" } := by
  decide

/-- C5, an instance: a session caching two training outputs, one input, a table that
fills what it is asked for: two values come back, in order. -/
theorem TrainStep_output_arity_witness :
    TrainingSession.TrainStep (idle Unit) () ⟨0, 2, 1⟩ [⟨some 7⟩]
      = (Outcome.returns [⟨some 0⟩, ⟨some 1⟩], ()) ∧
    (TrainingSession.TrainStep (traced (idle Unit)) ((), []) ⟨0, 2, 1⟩ [⟨some 7⟩]).2.2
      = [ApiCall.TrainStep 0 RunOptions.mk 1 [some 7] 2 [none, none]] :=
  ⟨((TrainStep_output_arity (idle Unit) () [] ⟨0, 2, 1⟩ [⟨some 7⟩]).2.1 [some 0, some 1] ()
      (by decide) (by decide)).1,
   (TrainStep_output_arity (idle Unit) () [] ⟨0, 2, 1⟩ [⟨some 7⟩]).1⟩

/-- C4, at the failing input: a session whose training graph has two outputs and whose
evaluation graph has one.  `EvalStep` asks the evaluation graph for two outputs and
hands it an array of one; a graph that fills what it is asked for writes past the
array.  With the counts the other way round it asks for one, hands an array of two, and
returns two values, the second one null. -/
theorem EvalStep_asks_for_training_count :
    (TrainingSession.EvalStep (traced (idle Unit)) ((), []) ⟨0, 2, 1⟩ []).2.2
      = [ApiCall.EvalStep 0 RunOptions.mk 0 [] 2 [none]] ∧
    (TrainingSession.EvalStep (idle Unit) () ⟨0, 2, 1⟩ []).1 = Outcome.undefined ∧
    (TrainingSession.EvalStep (traced (idle Unit)) ((), []) ⟨0, 1, 2⟩ []).2.2
      = [ApiCall.EvalStep 0 RunOptions.mk 0 [] 1 [none, none]] ∧
    (TrainingSession.EvalStep (idle Unit) () ⟨0, 1, 2⟩ []).1
      = Outcome.returns [⟨some 0⟩, ⟨none⟩] := by
  decide

/-- C6: on the runtime modelled from the spec, for every session and every
`(warmup_step_count, total_step_count, initial_lr)` that violates
`0 <= warmup_step_count <= total_step_count`, `RegisterLinearLRScheduler` throws
`ORT_INVALID_ARGUMENT` and leaves the runtime, the schedule of every session with it,
as it was. -/
theorem RegisterLinearLRScheduler_rejects (rest : OrtTrainingApi RefRuntime)
    (w : RefRuntime) (self : TrainingSession) (warmup_step_count total_step_count : int64_t)
    (initial_lr : float)
    (h : ¬ (0 ≤ warmup_step_count.val ∧ warmup_step_count.val ≤ total_step_count.val)) :
    TrainingSession.RegisterLinearLRScheduler (Ref.api rest) w self warmup_step_count
        total_step_count initial_lr
      = (Outcome.throws { code := OrtErrorCode.ORT_INVALID_ARGUMENT,
                          msg := "invalid schedule parameters" }, w) := by
  simp only [TrainingSession.RegisterLinearLRScheduler, Ref.api,
    Ref.RegisterLinearLRScheduler, if_neg h, Ref.fail, throw_or, ThrowOnError]

/-- C6, the witness: a warm-up count of -1, and a warm-up count of 100 against a total of
10, on a live session. -/
theorem RegisterLinearLRScheduler_rejects_witness :
    TrainingSession.construct (Ref.api (idle RefRuntime)) runtime0 SessionOptions.mk ⟨0⟩
        [116] none none = (Outcome.returns session0, runtime2) ∧
    TrainingSession.RegisterLinearLRScheduler (Ref.api (idle RefRuntime)) runtime2 session0
        minus_one ten pi_f
      = (Outcome.throws { code := OrtErrorCode.ORT_INVALID_ARGUMENT,
                          msg := "invalid schedule parameters" }, runtime2) ∧
    TrainingSession.RegisterLinearLRScheduler (Ref.api (idle RefRuntime)) runtime2 session0
        hundred ten pi_f
      = (Outcome.throws { code := OrtErrorCode.ORT_INVALID_ARGUMENT,
                          msg := "invalid schedule parameters" }, runtime2) :=
  ⟨by decide,
   RegisterLinearLRScheduler_rejects (idle RefRuntime) runtime2 session0 minus_one ten pi_f
     (by decide),
   RegisterLinearLRScheduler_rejects (idle RefRuntime) runtime2 session0 hundred ten pi_f
     (by decide)⟩

theorem Ref_CreateTrainingSession_success (w : RefRuntime) (env : Env)
    (options : SessionOptions) (state : OrtCheckpointStatePtr) (train : CharBuf)
    (evalp optp : Option CharBuf)
    (h : (Ref.CreateTrainingSession w env options state train evalp optp).status = none) :
    ∃ s : RefSession, s.checkpoint_state = state ∧
      (Ref.CreateTrainingSession w env options state train evalp optp).out
        = w.sessions.length ∧
      (Ref.CreateTrainingSession w env options state train evalp optp).world
        = { checkpoints := w.checkpoints, sessions := w.sessions ++ [s],
            models := w.models } := by
  unfold Ref.CreateTrainingSession at h ⊢
  cases hc : w.checkpoints[state]? with
  | none => simp [hc, Ref.failOut] at h
  | some c =>
    simp only [hc] at h ⊢
    cases ht : Ref.load_model w train with
    | error e => simp [ht] at h
    | ok tg =>
      simp only [ht] at h ⊢
      cases he : Ref.load_optional_model w evalp with
      | error e => simp [he] at h
      | ok eg =>
        simp only [he] at h ⊢
        cases ho : Ref.load_optional_model w optp with
        | error e => simp [ho] at h
        | ok og =>
          simp only [ho] at h ⊢
          by_cases hb : (Ref.binds c tg && Ref.binds_optional c eg
              && Ref.binds_optional c og) = true
          · rw [if_pos hb]
            exact ⟨_, rfl, rfl, rfl⟩
          · simp [hb, Ref.failOut] at h

theorem Ref_construct_success (rest : OrtTrainingApi RefRuntime) (w w1 : RefRuntime)
    (session_options : SessionOptions) (checkpoint_state : CheckpointState)
    (train_model_path : std_string) (eval_model_path optimizer_model_path : Option std_string)
    (session : TrainingSession)
    (h : TrainingSession.construct (Ref.api rest) w session_options checkpoint_state
      train_model_path eval_model_path optimizer_model_path
        = (Outcome.returns session, w1)) :
    ∃ s : RefSession, s.checkpoint_state = checkpoint_state.p_ ∧
      session.p_ = w.sessions.length ∧
      w1 = { checkpoints := w.checkpoints, sessions := w.sessions ++ [s],
             models := w.models } := by
  unfold TrainingSession.construct at h
  simp only [Ref.api] at h
  cases h1 : (Ref.CreateTrainingSession w Env.mk session_options checkpoint_state.p_
      (c_str train_model_path) (eval_model_path.map c_str)
      (optimizer_model_path.map c_str)).status with
  | some e => simp [h1, ThrowOnError] at h
  | none =>
    obtain ⟨s, hs, hout, hworld⟩ := Ref_CreateTrainingSession_success _ _ _ _ _ _ _ h1
    refine ⟨s, hs, ?_, ?_⟩
    all_goals
      simp only [h1, ThrowOnError, hout, hworld, Ref.TrainingSessionGetTrainingModelOutputCount,
        Ref.TrainingSessionGetEvalModelOutputCount, List.getElem?_concat_length] at h
      cases hg : s.eval_graph <;>
        simp only [hg, throw_or, ThrowOnError, Prod.mk.injEq, Outcome.returns.injEq] at h
    · rw [← h.1]
    · rw [← h.1]
    · exact h.2.symm
    · exact h.2.symm

/-- C8: on the runtime modelled from the spec, for every live checkpoint state (its
module state empty or not) and every training session constructed on it,
`GetState(false)` called before any step returns a new checkpoint state whose module
state has as many named parameters as that of the bound checkpoint, under the same
names. -/
theorem GetState_parameter_names (rest : OrtTrainingApi RefRuntime) (w w1 : RefRuntime)
    (session_options : SessionOptions) (checkpoint_state : CheckpointState)
    (c : RefCheckpointState) (train_model_path : std_string)
    (eval_model_path optimizer_model_path : Option std_string) (session : TrainingSession)
    (hlive : w.checkpoints[checkpoint_state.p_]? = some c)
    (hctor : TrainingSession.construct (Ref.api rest) w session_options checkpoint_state
      train_model_path eval_model_path optimizer_model_path
        = (Outcome.returns session, w1)) :
    ∃ (state : CheckpointState) (w2 : RefRuntime) (snapshot : RefCheckpointState),
      TrainingSession.GetState (Ref.api rest) w1 session false
        = (Outcome.returns state, w2) ∧
      w2.checkpoints[state.p_]? = some snapshot ∧
      state.p_ ≠ checkpoint_state.p_ ∧
      snapshot.module_checkpoint_state.named_parameters.length
        = c.module_checkpoint_state.named_parameters.length ∧
      (∀ key : std_string, key ∈ Ref.names snapshot ↔ key ∈ Ref.names c) := by
  obtain ⟨s, hs, hp, hw1⟩ := Ref_construct_success rest w w1 session_options
    checkpoint_state train_model_path eval_model_path optimizer_model_path session hctor
  have hlt : checkpoint_state.p_ < w.checkpoints.length :=
    (List.getElem?_eq_some_iff.mp hlive).1
  refine ⟨⟨w.checkpoints.length⟩,
    { checkpoints := w.checkpoints ++
        [{ module_checkpoint_state := c.module_checkpoint_state,
           optimizer_checkpoint_state := [],
           property_bag := c.property_bag }],
      sessions := w.sessions ++ [s], models := w.models },
    { module_checkpoint_state := c.module_checkpoint_state,
      optimizer_checkpoint_state := [],
      property_bag := c.property_bag }, ?_, ?_, ?_, rfl, fun _ => Iff.rfl⟩
  · subst hw1
    simp [TrainingSession.GetState, Ref.api, Ref.GetState, hp, hs, hlive,
      List.getElem?_append_left hlt, throw_or, ThrowOnError]
  · simp
  · exact fun h => absurd hlt (by simp [← h])

/-- C8, the witness: the checkpoint of the spec's scenario, parameters "w" and "b"; the
snapshot is a second checkpoint state with the same two names. -/
theorem GetState_parameter_names_witness :
    checkpoint0.module_checkpoint_state.named_parameters ≠ [] ∧
    ∃ (state : CheckpointState) (w2 : RefRuntime) (snapshot : RefCheckpointState),
      TrainingSession.GetState (Ref.api (idle RefRuntime)) runtime2 session0 false
        = (Outcome.returns state, w2) ∧
      w2.checkpoints[state.p_]? = some snapshot ∧
      state.p_ ≠ 0 ∧
      snapshot.module_checkpoint_state.named_parameters.length
        = checkpoint0.module_checkpoint_state.named_parameters.length ∧
      (∀ key : std_string, key ∈ Ref.names snapshot ↔ key ∈ Ref.names checkpoint0) :=
  ⟨by decide,
   GetState_parameter_names (idle RefRuntime) runtime0 runtime2 SessionOptions.mk ⟨0⟩
     checkpoint0 [116] none none session0 (by decide) (by decide)⟩

end Ort
